import Mathlib

/-!
Verification development for the Resodo contact-extraction pipeline
(`src/utils.py`, `src/ollama_utils.py`, `src/routers/contact.py`).

The Python code is embedded shallowly:
* strings are `String`/`List Char` (Python `str` is a sequence of code
  points, as is Lean's `String` up to the surrogate range);
* `time.time()` timestamps are modelled as rationals (only their ordering
  and differences matter to the code);
* functions that raise `HTTPException` return `Except HTTPError _`;
* the regular expressions of the source are embedded as explicit ASTs and
  executed by a backtracking matcher (`mrun`) that mirrors the leftmost,
  priority-ordered, greedy/lazy search order of CPython's `re` module.

Character classes: `\d`, `\w`, `[a-zA-Z]` etc. are translated to their
ASCII meaning.  (CPython's `\d`/`\w` additionally accept some non-ASCII
code points; the source never relies on that.)
-/

namespace Resodo

/-! ## Python string primitives -/

/-- The whitespace set of CPython's `str.isspace` / `str.strip()`, which
coincides with the set matched by `\\s` in `re` patterns over `str`:
TAB..CR (9-13), FS..US (28-31), space, NEL (0x85), NBSP (0xa0) and the
Unicode space separators. -/
def pyIsSpace (c : Char) : Bool :=
  (9 <= c.toNat && c.toNat <= 13) || (28 <= c.toNat && c.toNat <= 31) ||
  c.toNat = 32 || c.toNat = 0x85 || c.toNat = 0xa0 || c.toNat = 0x1680 ||
  (0x2000 <= c.toNat && c.toNat <= 0x200a) || c.toNat = 0x2028 ||
  c.toNat = 0x2029 || c.toNat = 0x202f || c.toNat = 0x205f || c.toNat = 0x3000

/-- Python `str.strip()` on a list of characters. -/
def pyStripL (l : List Char) : List Char :=
  ((l.dropWhile pyIsSpace).reverse.dropWhile pyIsSpace).reverse

/-- Python `str.strip()`. -/
def pyStrip (s : String) : String :=
  ⟨pyStripL s.data⟩

/-- Python slicing `s[a:b]` for `0 ≤ a`, `0 ≤ b` (the source only slices with
nonnegative clamped indices: `max(0, ...)` is truncated `Nat` subtraction). -/
def pySlice (s : String) (a b : Nat) : String :=
  ⟨(s.data.drop a).take (b - a)⟩

/-- Python `str.capitalize()` (ASCII: first character uppercased, the rest
lowercased). -/
def pyCapitalize (s : String) : String :=
  match s.data with
  | [] => ""
  | c :: cs => ⟨c.toUpper :: cs.map Char.toLower⟩

/-- Python `str.startswith(p)`. -/
def pyStartsWith (p s : List Char) : Bool :=
  match p, s with
  | [], _ => true
  | _ :: _, [] => false
  | a :: p', b :: s' => a = b && pyStartsWith p' s'

/-! ## A small backtracking regex engine

`Re` is the AST of the regular expressions appearing in the source.  `mrun`
is a continuation-passing backtracking matcher whose choice order mirrors
CPython's `re`: alternation prefers the left branch, `star` (greedy `*`)
prefers to consume, `starL` (lazy `*?`) prefers not to.  `prev` is the
character immediately before the current position (needed by `\b`).  `fuel`
bounds the recursion depth; every loop in the source's patterns consumes at
least one character per iteration, so `(length + 2) * 100` fuel is far more
than any run can use. -/

inductive Re where
  | eps : Re
  | cls (p : Char → Bool) : Re
  | seq (a b : Re) : Re
  | alt (a b : Re) : Re
  | star (a : Re) : Re
  | starL (a : Re) : Re
  | wordB : Re

/-- ASCII `\w`: letters, digits, underscore. -/
def isWordChar (c : Char) : Bool :=
  c.isAlpha || c.isDigit || c = '_'

def wordAt : Option Char → Bool
  | some c => isWordChar c
  | none => false

def wordHead : List Char → Bool
  | c :: _ => isWordChar c
  | [] => false

def mrun : Nat → Re → Option Char → List Char →
    (Option Char → List Char → Option (List Char)) → Option (List Char)
  | 0, _, _, _, _ => none
  | _ + 1, .eps, prev, s, k => k prev s
  | _ + 1, .cls p, _, s, k =>
    match s with
    | [] => none
    | c :: rest => if p c then k (some c) rest else none
  | fuel + 1, .seq a b, prev, s, k =>
    mrun fuel a prev s fun p' s' => mrun fuel b p' s' k
  | fuel + 1, .alt a b, prev, s, k =>
    match mrun fuel a prev s k with
    | some r => some r
    | none => mrun fuel b prev s k
  | fuel + 1, .star a, prev, s, k =>
    match mrun fuel a prev s (fun p' s' => mrun fuel (.star a) p' s' k) with
    | some r => some r
    | none => k prev s
  | fuel + 1, .starL a, prev, s, k =>
    match k prev s with
    | some r => some r
    | none => mrun fuel a prev s fun p' s' => mrun fuel (.starL a) p' s' k
  | _ + 1, .wordB, prev, s, k =>
    if wordAt prev != wordHead s then k prev s else none

/-- One anchored attempt of `re.search` at position `i`: run the matcher;
its first success (in backtracking priority order) is the match CPython
reports from this position.  Returns the half-open span `(start, end)` in
character offsets. -/
def reSearchTry (r : Re) (s : List Char) (i : Nat) (prev : Option Char) :
    Option (Nat × Nat) :=
  match mrun ((s.length + 2) * 100) r prev s (fun _ rest => some rest) with
  | some rest => some (i, i + (s.length - rest.length))
  | none => none

/-- `re.search`: try each start position from the left. -/
def reSearchAux (r : Re) : List Char → Nat → Option Char → Option (Nat × Nat)
  | [], i, prev => reSearchTry r [] i prev
  | c :: s', i, prev =>
    match reSearchTry r (c :: s') i prev with
    | some res => some res
    | none => reSearchAux r s' (i + 1) (some c)

def reSearch (r : Re) (s : String) : Option (Nat × Nat) :=
  reSearchAux r s.data 0 none

/-! ### Pattern combinators (desugarings used by the source patterns) -/

/-- A literal character. -/
def rChr (c : Char) : Re := .cls (fun x => x = c)

/-- `X?` (greedy option). -/
def rOpt (a : Re) : Re := .alt a .eps

/-- `X+` (greedy). -/
def rPlus (a : Re) : Re := .seq a (.star a)

/-- `X{n}` followed by a tail. -/
def rRepThen (a : Re) : Nat → Re → Re
  | 0, t => t
  | n + 1, t => .seq a (rRepThen a n t)

/-- `X{0,n}` (greedy): up to `n` copies of `a`. -/
def rUpTo (a : Re) : Nat → Re
  | 0 => .eps
  | n + 1 => rOpt (.seq a (rUpTo a n))

/-- `X{m,}` (greedy): `m` copies then `X*`. -/
def rAtLeast (a : Re) (m : Nat) : Re := rRepThen a m (.star a)

/-- `X{1,n}` (greedy). -/
def rOneUpTo (a : Re) (n : Nat) : Re := .seq a (rUpTo a (n - 1))

/-! ### The three search patterns of the source -/

/-- `[A-Za-z0-9._%+-]` (email local part). -/
def emailLocalChar (c : Char) : Bool :=
  c.isAlpha || c.isDigit || c = '.' || c = '_' || c = '%' || c = '+' || c = '-'

/-- `[A-Za-z0-9.-]` (email domain part). -/
def emailDomainChar (c : Char) : Bool :=
  c.isAlpha || c.isDigit || c = '.' || c = '-'

/-- `utils.py:121`: `\b[A-Za-z0-9._%+-]+@[A-Za-z0-9.-]+\.[A-Za-z]{2,}\b` -/
def emailRe : Re :=
  .seq .wordB
    (.seq (rPlus (.cls emailLocalChar))
      (.seq (rChr '@')
        (.seq (rPlus (.cls emailDomainChar))
          (.seq (rChr '.')
            (.seq (rAtLeast (.cls Char.isAlpha) 2) .wordB)))))

/-- `[-.\s]` (phone separator). -/
def phoneSepChar (c : Char) : Bool :=
  c = '-' || c = '.' || pyIsSpace c

/-- `utils.py:123-126`:
`(\+\d{1,3}[-.\s]?)?\(?\d{3}\)?[-.\s]?\d{3}[-.\s]?\d{4}\b|\b\d{3}[-.\s]?\d{4}\b` -/
def phoneRe : Re :=
  .alt
    (.seq (rOpt (.seq (rChr '+')
                  (.seq (rOneUpTo (.cls Char.isDigit) 3)
                    (rOpt (.cls phoneSepChar)))))
      (.seq (rOpt (rChr '('))
        (rRepThen (.cls Char.isDigit) 3
          (.seq (rOpt (rChr ')'))
            (.seq (rOpt (.cls phoneSepChar))
              (rRepThen (.cls Char.isDigit) 3
                (.seq (rOpt (.cls phoneSepChar))
                  (rRepThen (.cls Char.isDigit) 4 .wordB))))))))
    (.seq .wordB
      (rRepThen (.cls Char.isDigit) 3
        (.seq (rOpt (.cls phoneSepChar))
          (rRepThen (.cls Char.isDigit) 4 .wordB))))

/-- `ollama_utils.py:142`: `\[\s*{.*?}\s*\]` with `re.DOTALL`
(so `.` matches every character). -/
def contactJsonRe : Re :=
  .seq (rChr '[')
    (.seq (.star (.cls pyIsSpace))
      (.seq (rChr '{')
        (.seq (.starL (.cls fun _ => true))
          (.seq (rChr '}')
            (.seq (.star (.cls pyIsSpace)) (rChr ']'))))))

/-! ## HTTP errors

`HTTPException(status_code=..., detail=...)` raised by the Python code. -/

structure HTTPError where
  status : Nat
  detail : String
deriving DecidableEq, Repr

/-! ## `validate_website` (`utils.py:17-34`)

The pattern `^(https?:\/\/)?([a-zA-Z0-9-]+\.)+[a-zA-Z]{2,}(:[0-9]{1,5})?(\/.*)?$`
is matched with `re.match` (anchored at the start; `$` accepts the end of the
string, or the position just before a single final newline).  The pattern is
deterministic for the purpose of a boolean match, which lets us embed it as a
direct decomposition instead of a backtracking run:

* a string starting with `http://` or `https://` can only match through the
  scheme group: without it, the label characters `[a-zA-Z0-9-]` cannot cover
  the `:`, so the pre-`/` part would need a port, whose digits `[0-9]{1,5}`
  cannot match the empty string between `:` and `//`;
* labels cannot contain `.`, so splitting the domain on dots is the unique
  decomposition; domain and port cannot contain `/`, so the path starts at
  the first `/` if any; the domain cannot contain `:`, so the port starts at
  the first `:` of the pre-path part. -/

/-- `[a-zA-Z0-9-]` (domain label character). -/
def labelChar (c : Char) : Bool :=
  c.isAlpha || c.isDigit || c = '-'

/-- Split at the first occurrence of `c`; the second component starts with
`c` if `c` occurs at all. -/
def splitAtFirst (c : Char) (l : List Char) : List Char × List Char :=
  (l.takeWhile (fun x => x != c), l.dropWhile (fun x => x != c))

/-- `([a-zA-Z0-9-]+\.)+[a-zA-Z]{2,}` on a dot-separated list. -/
def domainMatch (l : List Char) : Bool :=
  let parts := l.splitOn '.'
  2 ≤ parts.length &&
  parts.dropLast.all (fun p => !p.isEmpty && p.all labelChar) &&
  (match parts.getLast? with
   | some t => 2 ≤ t.length && t.all Char.isAlpha
   | none => false)

/-- `(:[0-9]{1,5})?` applied to everything from the first `:` on. -/
def portMatch (l : List Char) : Bool :=
  match l with
  | [] => true
  | ':' :: ds => 1 ≤ ds.length && ds.length ≤ 5 && ds.all Char.isDigit
  | _ => false

/-- `(\/.*)?` applied to everything from the first `/` on (`.` does not
match a newline; the one admissible final newline was already
removed before this check). -/
def pathMatch (l : List Char) : Bool :=
  match l with
  | [] => true
  | '/' :: rest => rest.all (fun c => c != '\n')
  | _ => false

/-- Remove the single trailing newline that `$` may sit in front of. -/
def dropOneTrailingNL (l : List Char) : List Char :=
  match l.getLast? with
  | some '\n' => l.dropLast
  | _ => l

/-- The scheme-less part `([a-zA-Z0-9-]+\.)+[a-zA-Z]{2,}(:[0-9]{1,5})?(\/.*)?`. -/
def urlCoreMatch (l : List Char) : Bool :=
  let dpPath := splitAtFirst '/' l
  let domPort := splitAtFirst ':' dpPath.1
  domainMatch domPort.1 && portMatch domPort.2 && pathMatch dpPath.2

/-- `url_pattern.match(s)` of `utils.py:20-27` as a boolean. -/
def url_pattern_match (s : String) : Bool :=
  let l := dropOneTrailingNL s.data
  if pyStartsWith "http://".data l then urlCoreMatch (l.drop 7)
  else if pyStartsWith "https://".data l then urlCoreMatch (l.drop 8)
  else urlCoreMatch l

/-- `utils.py:17-34` (`validate_website`). -/
def validate_website (url : String) : Except HTTPError String :=
  if url_pattern_match url then .ok url
  else if !(pyStartsWith "http://".data url.data || pyStartsWith "https://".data url.data) then
    let url2 := "https://" ++ url
    if url_pattern_match url2 then .ok url2
    else .error ⟨422, "Invalid website URL format"⟩
  else .ok url

/-! ## `validate_filer_info` (`utils.py:36-50`) -/

def validate_filer_info_go (validated : List String) : List String → Except HTTPError (List String)
  | [] =>
    if validated.length = 0 then .error ⟨422, "No valid filer_info provided"⟩
    else .ok validated
  | item :: rest =>
    if item = "" || (pyStrip item).length = 0 then validate_filer_info_go validated rest
    else if 1000 < item.length then
      .error ⟨422, "filer_info item too long (max 1000 chars)"⟩
    else validate_filer_info_go (validated ++ [pyStrip item]) rest

/-- `utils.py:36-50` (`validate_filer_info`). -/
def validate_filer_info (info_list : List String) : Except HTTPError (List String) :=
  validate_filer_info_go [] info_list

/-! ## `validate_resolution` (`utils.py:52-66`)

The suspicious patterns are searched case-insensitively; `.` in `<script.*?>`
etc. does not match a newline (no `DOTALL` here). -/

/-- A case-insensitive literal character (`re.IGNORECASE`, ASCII). -/
def rChrI (c : Char) : Re := .cls (fun x => x.toLower = c.toLower)

def rLitI (s : String) : Re :=
  s.data.foldr (fun c r => .seq (rChrI c) r) .eps

/-- `<name.*?>` (markup-tag pattern). -/
def rTag (s : String) : Re :=
  .seq (rLitI s) (.seq (.starL (.cls fun c => c != '\n')) (rChrI '>'))

/-- `utils.py:55-60` (`suspicious_patterns`), in source order. -/
def suspicious_patterns : List Re :=
  [ rTag "<script", rLitI "javascript:", rLitI "vbscript:", rLitI "onload=",
    rLitI "onerror=", rLitI "onclick=", rLitI "eval(", rLitI "document.",
    rLitI "window.", rLitI "alert(", rLitI "prompt(", rLitI "confirm(",
    rTag "<iframe", rTag "<object", rTag "<embed" ]

/-- `utils.py:52-66` (`validate_resolution`). -/
def validate_resolution (text : String) : Except HTTPError String :=
  if suspicious_patterns.any (fun p => (reSearch p text).isSome) then
    .error ⟨422, "Resolution contains suspicious content"⟩
  else .ok (pyStrip text)

/-! ## `validate_legal_document` (`utils.py:68-77`)

`isinstance(text, str)` always holds in the typed embedding; `not text`
holds exactly for the empty string. -/

/-- `utils.py:68-77` (`validate_legal_document`). -/
def validate_legal_document (text : String) : Except HTTPError String :=
  if text = "" then .error ⟨500, "Legal document generation failed"⟩
  else
    let t := pyStrip text
    if t.length < 100 then .error ⟨500, "Generated legal document is too short"⟩
    else .ok t

/-! ## Rate limiting (`utils.py:79-106`)

`rate_limit_store` is modelled as a total map from client identity to its
timestamp list (`defaultdict(list)`: a missing key reads as `[]`).
`time.time()` timestamps are modelled as rationals. -/

abbrev RateStore := String → List ℚ

def emptyStore : RateStore := fun _ => []

def storeSet (st : RateStore) (ip : String) (v : List ℚ) : RateStore :=
  fun k => if k = ip then v else st k

/-- `utils.py:85-106` (`check_rate_limit`): prune the client's window to the
trailing 60 seconds, then either raise 429 (leaving the pruned window in the
store: the pruning assignment happens before the raise) or append `now`. -/
def check_rate_limit (client_ip : String) (now : ℚ) (st : RateStore) :
    Except HTTPError Bool × RateStore :=
  let pruned := (st client_ip).filter (fun ts => now - ts < 60)
  if 10 ≤ pruned.length then
    (.error ⟨429, "Rate limit exceeded. Maximum 10 requests per minute."⟩,
     storeSet st client_ip pruned)
  else
    (.ok true, storeSet st client_ip (pruned ++ [now]))

/-- A sequence of rate-limit checks (client, time) starting from the empty
store, keeping only the store evolution. -/
def runChecks (l : List (String × ℚ)) : RateStore :=
  l.foldl (fun st p => (check_rate_limit p.1 p.2 st).2) emptyStore

/-! ## `extract_contact_chunks` (`utils.py:109-150`) -/

/-- `utils.py:128-144`: the anchor match (the single match, or on two
matches the one with the smaller start; on equal starts the phone wins,
mirroring `email if email.start() < phone.start() else phone`). -/
def extract_anchor (page_text : String) : Option (Nat × Nat) :=
  let email_match := reSearch emailRe page_text
  let phone_match := reSearch phoneRe page_text
  match email_match, phone_match with
  | none, none => none
  | some em, some pm => some (if em.1 < pm.1 then em else pm)
  | some em, none => some em
  | none, some pm => some pm

/-- `utils.py:109-150` (`extract_contact_chunks`).  `max(0, start - c)` is
truncated `Nat` subtraction. -/
def extract_contact_chunks (page_text : String) (context_chars : Nat) : Option String :=
  match extract_anchor page_text with
  | none => none
  | some m =>
    some (pyStrip (pySlice page_text (m.1 - context_chars)
      (min page_text.length (m.2 + context_chars))))

/-! ## JSON decoding (`json.loads`, used by `ollama_utils.py:152`)

A faithful recursive-descent parser for the grammar CPython's `json.loads`
accepts by default (standard JSON plus `NaN`/`Infinity`/`-Infinity`; strict
strings: unescaped control characters below 0x20 are rejected; numbers
follow `-?(0|[1-9]\d*)(\.\d+)?([eE][+-]?\d+)?`).  Numbers are kept as their
lexemes (no claim inspects numeric values); object keys keep CPython's
`dict` semantics: a repeated key overwrites the value in place. -/

inductive Json where
  | null : Json
  | bool (b : Bool) : Json
  | num (lexeme : String) : Json
  | str (s : String) : Json
  | arr (elems : List Json) : Json
  | obj (fields : List (String × Json)) : Json

/-- JSON insignificant whitespace. -/
def jsonWs (c : Char) : Bool :=
  c = ' ' || c = '\t' || c = '\n' || c = '\r'

def skipWs (l : List Char) : List Char := l.dropWhile jsonWs

def hexVal (c : Char) : Option Nat :=
  if c.isDigit then some (c.toNat - 48)
  else if 'a' ≤ c && c ≤ 'f' then some (c.toNat - 87)
  else if 'A' ≤ c && c ≤ 'F' then some (c.toNat - 55)
  else none

def parse4Hex : List Char → Option (Nat × List Char)
  | a :: b :: c :: d :: rest =>
    match hexVal a, hexVal b, hexVal c, hexVal d with
    | some va, some vb, some vc, some vd =>
      some (va * 4096 + vb * 256 + vc * 16 + vd, rest)
    | _, _, _, _ => none
  | _ => none

/-- Decode a JSON string body (after the opening quote).  A surrogate pair
of `\uXXXX` escapes is combined; CPython keeps a lone surrogate as-is, which
`Char` cannot represent — `Char.ofNat` maps it to NUL (no claim depends on
strings containing lone surrogates). -/
def parseJStr : Nat → List Char → Option (List Char × List Char)
  | 0, _ => none
  | fuel + 1, l =>
    match l with
    | [] => none
    | '"' :: rest => some ([], rest)
    | '\\' :: e :: rest =>
      let simple : Option Char :=
        if e = '"' then some '"' else if e = '\\' then some '\\'
        else if e = '/' then some '/' else if e = 'b' then some '\x08'
        else if e = 'f' then some '\x0c' else if e = 'n' then some '\n'
        else if e = 'r' then some '\r' else if e = 't' then some '\t'
        else none
      match simple with
      | some c =>
        match parseJStr fuel rest with
        | some p => some (c :: p.1, p.2)
        | none => none
      | none =>
        if e = 'u' then
          match parse4Hex rest with
          | none => none
          | some (n, rest2) =>
            if 0xd800 ≤ n && n ≤ 0xdbff then
              match rest2 with
              | '\\' :: 'u' :: rest3 =>
                match parse4Hex rest3 with
                | some (n2, rest4) =>
                  if 0xdc00 ≤ n2 && n2 ≤ 0xdfff then
                    match parseJStr fuel rest4 with
                    | some p =>
                      some (Char.ofNat (0x10000 + (n - 0xd800) * 0x400 + (n2 - 0xdc00)) :: p.1, p.2)
                    | none => none
                  else
                    match parseJStr fuel rest2 with
                    | some p => some (Char.ofNat n :: p.1, p.2)
                    | none => none
                | none =>
                  match parseJStr fuel rest2 with
                  | some p => some (Char.ofNat n :: p.1, p.2)
                  | none => none
              | _ =>
                match parseJStr fuel rest2 with
                | some p => some (Char.ofNat n :: p.1, p.2)
                | none => none
            else
              match parseJStr fuel rest2 with
              | some p => some (Char.ofNat n :: p.1, p.2)
              | none => none
        else none
    | c :: rest =>
      if c.toNat < 0x20 then none
      else
        match parseJStr fuel rest with
        | some p => some (c :: p.1, p.2)
        | none => none

/-- `NUMBER_RE`: `-?(0|[1-9]\d*)(\.\d+)?([eE][+-]?\d+)?` (longest match),
plus the scanner's `-Infinity` fallback.  Returns the lexeme. -/
def parseJNum (l : List Char) : Option (Json × List Char) :=
  let sign : List Char × List Char :=
    match l with
    | '-' :: t => (['-'], t)
    | _ => ([], l)
  let intPart : Option (List Char × List Char) :=
    match sign.2 with
    | '0' :: t => some (['0'], t)
    | c :: _ =>
      if c.isDigit then
        some (sign.2.takeWhile Char.isDigit, sign.2.dropWhile Char.isDigit)
      else none
    | [] => none
  match intPart with
  | none =>
    if pyStartsWith "-Infinity".data l then
      some (.num "-Infinity", l.drop 9)
    else none
  | some (ip, r1) =>
    let frac : List Char × List Char :=
      match r1 with
      | '.' :: t =>
        if (t.takeWhile Char.isDigit).isEmpty then ([], r1)
        else ('.' :: t.takeWhile Char.isDigit, t.dropWhile Char.isDigit)
      | _ => ([], r1)
    let r2 := frac.2
    let expPart : List Char × List Char :=
      match r2 with
      | e :: t =>
        if e = 'e' || e = 'E' then
          let st : List Char × List Char :=
            match t with
            | '+' :: t2 => (['+'], t2)
            | '-' :: t2 => (['-'], t2)
            | _ => ([], t)
          if (st.2.takeWhile Char.isDigit).isEmpty then ([], r2)
          else (e :: (st.1 ++ st.2.takeWhile Char.isDigit), st.2.dropWhile Char.isDigit)
        else ([], r2)
      | [] => ([], r2)
    some (.num ⟨sign.1 ++ ip ++ frac.1 ++ expPart.1⟩, expPart.2)

/-- CPython `dict` assignment on an insertion-ordered association list:
a repeated key overwrites in place, a new key is appended. -/
def assocSet (fields : List (String × Json)) (key : String) (v : Json) :
    List (String × Json) :=
  match fields with
  | [] => [(key, v)]
  | (k', v') :: rest =>
    if k' = key then (k', v) :: rest else (k', v') :: assocSet rest key v

mutual

def parseJValue : Nat → List Char → Option (Json × List Char)
  | 0, _ => none
  | fuel + 1, l =>
    match l with
    | [] => none
    | c :: rest =>
      if c = '{' then parseJObj fuel (skipWs rest) true []
      else if c = '[' then parseJArr fuel (skipWs rest) true []
      else if c = '"' then
        match parseJStr (rest.length + 1) rest with
        | some p => some (.str ⟨p.1⟩, p.2)
        | none => none
      else if c = 't' then
        if pyStartsWith "rue".data rest then some (.bool true, rest.drop 3) else none
      else if c = 'f' then
        if pyStartsWith "alse".data rest then some (.bool false, rest.drop 4) else none
      else if c = 'n' then
        if pyStartsWith "ull".data rest then some (.null, rest.drop 3) else none
      else if c = 'N' then
        if pyStartsWith "aN".data rest then some (.num "NaN", rest.drop 2) else none
      else if c = 'I' then
        if pyStartsWith "nfinity".data rest then some (.num "Infinity", rest.drop 7) else none
      else parseJNum l

/-- Array elements after `[`; `first` is true before the first element. -/
def parseJArr : Nat → List Char → Bool → List Json → Option (Json × List Char)
  | 0, _, _, _ => none
  | fuel + 1, l, first, acc =>
    match l, first with
    | ']' :: rest, true => some (.arr acc.reverse, rest)
    | _, _ =>
      match parseJValue fuel l with
      | none => none
      | some (v, r1) =>
        match skipWs r1 with
        | ',' :: r2 => parseJArr fuel (skipWs r2) false (v :: acc)
        | ']' :: r2 => some (.arr (v :: acc).reverse, r2)
        | _ => none

/-- Object members after `{`; `first` is true before the first member. -/
def parseJObj : Nat → List Char → Bool → List (String × Json) →
    Option (Json × List Char)
  | 0, _, _, _ => none
  | fuel + 1, l, first, acc =>
    match l, first with
    | '}' :: rest, true => some (.obj acc, rest)
    | _, _ =>
      match l with
      | '"' :: r0 =>
        match parseJStr (r0.length + 1) r0 with
        | none => none
        | some (keyChars, r1) =>
          match skipWs r1 with
          | ':' :: r2 =>
            match parseJValue fuel (skipWs r2) with
            | none => none
            | some (v, r3) =>
              let acc' := assocSet acc ⟨keyChars⟩ v
              match skipWs r3 with
              | ',' :: r4 => parseJObj fuel (skipWs r4) false acc'
              | '}' :: r4 => some (.obj acc', r4)
              | _ => none
          | _ => none
      | _ => none

end

/-- `json.loads` (returns `none` where CPython raises `JSONDecodeError`). -/
def json_loads (s : String) : Option Json :=
  match parseJValue (s.length + 1) (skipWs s.data) with
  | some (v, rest) => if skipWs rest = [] then some v else none
  | none => none

/-! ## `extract_contact_info` (`ollama_utils.py:77-176`), parsing stage

The model call is external: both its branches either return `[]` on a call
failure or bind `response` to the stripped completion text.  The function
below is the parsing stage (`ollama_utils.py:137-176`) applied to the raw
completion text.  Every exception branch of the source (`TypeError`,
`json.JSONDecodeError`, any other exception) returns `[]`, as does a decode
producing a non-list — which cannot happen, since the matched substring
starts with `[`. -/

def extract_contact_info_parse (model_output : String) : List Json :=
  let response := pyStrip model_output
  if response = "" then []
  else
    match reSearch contactJsonRe response with
    | none => []
    | some span =>
      let json_text := pySlice response span.1 span.2
      if json_text = "" then []
      else
        match json_loads json_text with
        | none => []
        | some (.arr elems) => elems
        | some _ => []

/-! ## Contact normalization and formatting (`utils.py:242-268`)

`_normalize_contacts` / `_format_contacts` receive Python values that may be
`None`, a string, a dict, or a list whose items are dicts or other values.
`CItem.raw s` stands for a non-dict item whose `str()` display is `s`. -/

inductive CItem where
  | dict (fields : List (String × String)) : CItem
  | raw (s : String) : CItem
deriving DecidableEq, Repr

inductive PyContacts where
  | none : PyContacts
  | str (s : String) : PyContacts
  | dict (fields : List (String × String)) : PyContacts
  | list (items : List CItem) : PyContacts
deriving DecidableEq, Repr

/-- Python `d.get(key, default)` (an insertion-ordered dict has no repeated
keys, so first-match lookup is exact). -/
def dictGet (fields : List (String × String)) (key dflt : String) : String :=
  match fields.find? (fun kv => kv.1 = key) with
  | some kv => kv.2
  | none => dflt

/-- `utils.py:242-255` (`_normalize_contacts`).  `if not x:` is truth-value
testing: `None`, the empty string, the empty dict and the empty list are all
falsy and yield `[]`. -/
def normalize_contacts : PyContacts → List CItem
  | .none => []
  | .str s => if s = "" then [] else [.dict [("type", "info"), ("value", s)]]
  | .dict d => if d = [] then [] else [.dict d]
  | .list items => if items = [] then [] else items

/-- The body of the formatting loop of `utils.py:260-267`: a dict renders
as `Type: value` (`info.get('type', 'info').capitalize()`), anything else
as its `str()` display. -/
def render_contact : CItem → String
  | .dict d => pyCapitalize (dictGet d "type" "info") ++ ": " ++ dictGet d "value" ""
  | .raw s => s

/-- `utils.py:257-268` (`_format_contacts`). -/
def format_contacts (lst : List CItem) : String :=
  if lst = [] then "N/A"
  else String.intercalate ", " (lst.map render_contact)

/-! ## `legal_doc_to_pdf` (`utils.py:153-318`)

The ReportLab renderer (`SimpleDocTemplate`, `Paragraph`, `doc.build`) and
the filesystem (`os.path.abspath`, the current date) are black boxes,
represented by `PdfWorld`.  The pure parts — dash normalization, filename
suffixing, contact normalization/formatting, the paragraph split — are
embedded exactly; the flowable story is passed to the black-box builder as a
list of paragraph source strings. -/

/-- `utils.py:170-179` (`dash_chars`): hyphen-minus, hyphen, non-breaking
hyphen, figure dash, en dash, em dash, horizontal bar, minus sign. -/
def dash_chars : List Char :=
  ['-', '‐', '‑', '‒', '–', '—', '―', '−']

/-- `utils.py:181-184`: replace every dash-like character by an en dash
(all of `dash_chars` are single characters, so `str.replace` is a map). -/
def normalizeDashes (s : String) : String :=
  ⟨s.data.map fun c => if dash_chars.contains c then '–' else c⟩

structure PdfWorld where
  /-- `doc.build(story)` outcome on the given story (error = the exception's
  `str(e)`). -/
  build : List String → Except String Unit
  /-- `os.path.abspath`. -/
  abspathOf : String → String
  /-- `datetime.now().strftime("%B %d, %Y")`. -/
  current_date : String

/-- `utils.py:153-318` (`legal_doc_to_pdf`). -/
def legal_doc_to_pdf (legal_text output_filename respondent_name : String)
    (respondent_info filer_info : PyContacts) (filer_name : String)
    (w : PdfWorld) : Except String String :=
  let legal_text := normalizeDashes legal_text
  let output_filename :=
    if output_filename.endsWith ".pdf" then output_filename
    else output_filename ++ ".pdf"
  let filer_norm := normalize_contacts filer_info
  let respondent_norm := normalize_contacts respondent_info
  let metadata :=
    "\n    <b>Date:</b> " ++ w.current_date ++ "<br/>\n    <b>Parties Involved:</b> "
    ++ filer_name ++ " (Filer) vs. " ++ respondent_name
    ++ " (Respondent)<br/>\n    <b>Filer Contact Information:</b> "
    ++ format_contacts filer_norm
    ++ "<br/>\n    <b>Respondent Contact Information:</b> "
    ++ format_contacts respondent_norm ++ "\n    "
  let paragraphs :=
    ((legal_text.splitOn "\n\n").filter fun p => pyStrip p ≠ "").map
      fun p => p.replace "\n" "<br/>"
  let story :=
    ["FORMAL DEMAND FOR RESOLUTION", metadata] ++ paragraphs ++
    ["ACKNOWLEDGEMENT AND SIGNATURE",
     "\n    I, the filer, hereby declare under penalty of perjury that the foregoing is true and correct to the best of my knowledge, information, and belief.\n    ",
     "Signature:__________________________________________________Date:____________",
     "\n    Confidential Legal Document - Do not distribute without authorization\n    "]
  match w.build story with
  | .ok _ => .ok (w.abspathOf output_filename)
  | .error e => .error ("Error generating PDF: " ++ e)

/-! ## The endpoint (`routers/contact.py:23-141`)

The crawl, the two model completions, the clock and the filesystem are
external collaborators, collected in `World`.  `crawl_text = ""` models a
falsy crawl result (`if not page_text or ...`).  `model_response` is the
completion text of the contact-extraction call as a function of the page
chunk passed into the prompt; a failing model call returns `[]` from
`extract_contact_info` just like parsing an empty response does. -/

structure World where
  client_ip : String
  now : ℚ
  /-- `datetime.now().isoformat()`. -/
  timestamp : String
  /-- `find_contact_url(website)` result; `""` = falsy/no result. -/
  crawl_text : String
  /-- contact-extraction completion text, as a function of the page chunk. -/
  model_response : Option String → String
  /-- `legal_doc_creation(...)` result (that function returns an error
  string rather than raising when the model call fails). -/
  legal_doc_text : String
  /-- `tempfile.NamedTemporaryFile(...).name`. -/
  tmp_pdf_path : String
  pdf : PdfWorld

structure ResponseData where
  respondent : String
  filer : String
  filer_info : List String
  reason : String
  website : String
  contacts : List Json
  message : Option String
  pdf_error : Option String
  timestamp : String

inductive RouteResult where
  | json (d : ResponseData) : RouteResult
  | file (path : String) (filename : String) : RouteResult
  | httpError (e : HTTPError) : RouteResult

/-- `contact['value']` (`contact.py:85`): a missing key raises `KeyError`,
a non-dict contact raises `TypeError`; both land in the inner
`except Exception` handler.  (The exact message only feeds `pdf_error`.) -/
def contactValue : Json → Except String Json
  | .obj fields =>
    match fields.find? (fun kv => kv.1 = "value") with
    | some kv => .ok kv.2
    | none => .error "'value'"
  | _ => .error "contact subscript failed"

/-- Python `str()` of a decoded JSON value as used in the metadata f-string;
containers are abbreviated (no claim inspects this display). -/
def jsonDisplay : Json → String
  | .null => "None"
  | .bool true => "True"
  | .bool false => "False"
  | .num lx => lx
  | .str s => s
  | .arr _ => "[...]"
  | .obj _ => "..."

def jsonToCItem : Json → CItem
  | .obj fields => .dict (fields.map fun kv => (kv.1, jsonDisplay kv.2))
  | j => .raw (jsonDisplay j)

/-- `routers/contact.py:23-141` (`get_contact_info`).  Returns the response,
the rate-limit store after the call, and whether legal-document generation
(`legal_doc_creation`, `contact.py:89`) was invoked. -/
def get_contact_info (respondent website filer : String) (filer_info : List String)
    (resolution : String) (w : World) (st : RateStore) :
    RouteResult × RateStore × Bool :=
  match check_rate_limit w.client_ip w.now st with
  | (.error e, st') => (.httpError e, st', false)
  | (.ok _, st') =>
    match validate_website website with
    | .error e => (.httpError e, st', false)
    | .ok website =>
      match validate_filer_info filer_info with
      | .error e => (.httpError e, st', false)
      | .ok filer_info =>
        match validate_resolution resolution with
        | .error e => (.httpError e, st', false)
        | .ok resolution =>
          let page_text := w.crawl_text
          if page_text = "" then
            (.json { respondent := respondent, filer := filer,
                     filer_info := filer_info, reason := resolution,
                     website := website, contacts := [],
                     message := some "No contact information found",
                     pdf_error := none, timestamp := w.timestamp }, st', false)
          else
            let page_chunk := extract_contact_chunks page_text 1000
            let contacts := extract_contact_info_parse (w.model_response page_chunk)
            let response_data : ResponseData :=
              { respondent := respondent, filer := filer,
                filer_info := filer_info, reason := resolution,
                website := website, contacts := contacts, message := none,
                pdf_error := none, timestamp := w.timestamp }
            match contacts with
            | [] => (.json response_data, st', false)
            | _ :: _ =>
              match contacts.mapM contactValue with
              | .error msg =>
                (.json { response_data with pdf_error := some msg }, st', false)
              | .ok respondent_data =>
                match validate_legal_document w.legal_doc_text with
                | .error e => (.httpError e, st', true)
                | .ok legal_document =>
                  match legal_doc_to_pdf legal_document w.tmp_pdf_path respondent
                      (.list (respondent_data.map jsonToCItem))
                      (.list (filer_info.map CItem.raw)) filer w.pdf with
                  | .ok pdf_path =>
                    (.file pdf_path ("Resolution for " ++ respondent ++ ".pdf"), st', true)
                  | .error msg =>
                    (.json { response_data with pdf_error := some msg }, st', true)

/-! ## Derived notions used by the theorem statements -/

/-- A regex can match the empty string. -/
def nullable : Re → Bool
  | .eps => true
  | .cls _ => false
  | .seq a b => nullable a && nullable b
  | .alt a b => nullable a || nullable b
  | .star _ => true
  | .starL _ => true
  | .wordB => true

/-- Over-approximation of the first character a match of `r` can consume. -/
def firstSet : Re → Char → Bool
  | .eps, _ => false
  | .cls p, c => p c
  | .seq a b, c => firstSet a c || (nullable a && firstSet b c)
  | .alt a b, c => firstSet a c || firstSet b c
  | .star a, c => firstSet a c
  | .starL a, c => firstSet a c
  | .wordB, _ => false

/-- Over-approximation of the last character a match of `r` can consume. -/
def lastSet : Re → Char → Bool
  | .eps, _ => false
  | .cls p, c => p c
  | .seq a b, c => lastSet b c || (nullable b && lastSet a c)
  | .alt a b, c => lastSet a c || lastSet b c
  | .star a, c => lastSet a c
  | .starL a, c => lastSet a c
  | .wordB, _ => false

/-- `small` occurs contiguously inside `big`. -/
def containsSub (big small : String) : Prop :=
  ∃ x y, big.data = x ++ small.data ++ y

/-- The entries of `info_list` that survive `validate_filer_info`'s
empty-after-trim filter, trimmed. -/
def filerSurvivors (info_list : List String) : List String :=
  (info_list.filter fun i => (pyStrip i).length != 0).map pyStrip

/-! # Helper lemmas -/

theorem length_dropWhile_le (p : Char → Bool) (l : List Char) :
    (l.dropWhile p).length ≤ l.length := by
  induction l with
  | nil => simp
  | cons a t ih =>
    by_cases ha : p a
    · simp only [List.dropWhile, ha]
      exact ih.trans (Nat.le_succ _)
    · simp [List.dropWhile, ha]

theorem pyStripL_length_le (l : List Char) : (pyStripL l).length ≤ l.length := by
  unfold pyStripL
  calc ((l.dropWhile pyIsSpace).reverse.dropWhile pyIsSpace).reverse.length
      = ((l.dropWhile pyIsSpace).reverse.dropWhile pyIsSpace).length := by
        simp
    _ ≤ (l.dropWhile pyIsSpace).reverse.length := length_dropWhile_le _ _
    _ = (l.dropWhile pyIsSpace).length := by simp
    _ ≤ l.length := length_dropWhile_le _ _

/-! ## Rate limiter lemmas -/

theorem storeSet_same (st : RateStore) (ip : String) (v : List ℚ) :
    storeSet st ip v ip = v := by
  simp [storeSet]

theorem storeSet_other (st : RateStore) (ip : String) (v : List ℚ) (k : String)
    (h : k ≠ ip) : storeSet st ip v k = st k := by
  simp [storeSet, h]

theorem check_bound_step (ip : String) (now : ℚ) (st : RateStore)
    (h : ∀ c, (st c).length ≤ 10) (c : String) :
    (((check_rate_limit ip now st).2) c).length ≤ 10 := by
  unfold check_rate_limit
  have hple : ((st ip).filter (fun ts => now - ts < 60)).length ≤ (st ip).length :=
    List.length_filter_le _ _
  have hip := h ip
  by_cases h10 : 10 ≤ ((st ip).filter (fun ts => now - ts < 60)).length
  · simp only [if_pos h10]
    by_cases hc : c = ip
    · subst hc
      rw [storeSet_same]
      omega
    · rw [storeSet_other _ _ _ _ hc]
      exact h c
  · simp only [if_neg h10]
    by_cases hc : c = ip
    · subst hc
      rw [storeSet_same]
      simp only [List.length_append, List.length_singleton]
      omega
    · rw [storeSet_other _ _ _ _ hc]
      exact h c

theorem runChecks_bound_aux (l : List (String × ℚ)) :
    ∀ st : RateStore, (∀ c, (st c).length ≤ 10) →
      ∀ c, ((l.foldl (fun st p => (check_rate_limit p.1 p.2 st).2) st) c).length ≤ 10 := by
  induction l with
  | nil => intro st hst c; simpa using hst c
  | cons p rest ih =>
    intro st hst c
    exact ih _ (fun c' => check_bound_step p.1 p.2 st hst c') c

theorem runChecks_append_single (l : List (String × ℚ)) (p : String × ℚ) :
    runChecks (l ++ [p]) = (check_rate_limit p.1 p.2 (runChecks l)).2 := by
  simp [runChecks, List.foldl_append]

/-! # Claim theorems -/

/-- Claim C4: each rate-limit check first drops the client's timestamps
older than 60 seconds; with 10 or more remaining it rejects with the 429
signal and records no timestamp, otherwise it appends the current timestamp
and allows; consequently (from the empty store) every client's window always
holds at most 10 timestamps, after any check the checked client's window
only holds timestamps within the trailing 60 seconds of that check, and an
11th request arriving while 10 in-window timestamps are stored is rejected
with the store left exactly as it was. -/
theorem rate_limit_spec :
    (∀ (ip : String) (now : ℚ) (st : RateStore),
      10 ≤ ((st ip).filter (fun ts => now - ts < 60)).length →
        check_rate_limit ip now st =
          (.error ⟨429, "Rate limit exceeded. Maximum 10 requests per minute."⟩,
           storeSet st ip ((st ip).filter (fun ts => now - ts < 60)))) ∧
    (∀ (ip : String) (now : ℚ) (st : RateStore),
      ((st ip).filter (fun ts => now - ts < 60)).length < 10 →
        check_rate_limit ip now st =
          (.ok true,
           storeSet st ip ((st ip).filter (fun ts => now - ts < 60) ++ [now]))) ∧
    (∀ (l : List (String × ℚ)) (c : String), ((runChecks l) c).length ≤ 10) ∧
    (∀ (l : List (String × ℚ)) (ip : String) (now ts : ℚ),
      ts ∈ (runChecks (l ++ [(ip, now)])) ip → now - ts < 60) ∧
    (∀ (ip : String) (now : ℚ) (st : RateStore),
      (st ip).length = 10 → (∀ ts ∈ st ip, now - ts < 60) →
        check_rate_limit ip now st =
          (.error ⟨429, "Rate limit exceeded. Maximum 10 requests per minute."⟩, st)) := by
  refine ⟨?_, ?_, ?_, ?_, ?_⟩
  · intro ip now st h10
    simp [check_rate_limit, if_pos h10]
  · intro ip now st h10
    have : ¬ 10 ≤ ((st ip).filter (fun ts => now - ts < 60)).length := by omega
    simp [check_rate_limit, if_neg this]
  · intro l c
    exact runChecks_bound_aux l emptyStore (by intro c'; simp [emptyStore]) c
  · intro l ip now ts h
    rw [runChecks_append_single] at h
    unfold check_rate_limit at h
    by_cases h10 : 10 ≤ (((runChecks l) ip).filter (fun ts => now - ts < 60)).length
    · rw [if_pos h10] at h
      simp only [storeSet_same] at h
      have := List.mem_filter.mp h
      exact of_decide_eq_true this.2
    · rw [if_neg h10] at h
      simp only [storeSet_same] at h
      rcases List.mem_append.mp h with hmem | hmem
      · have := List.mem_filter.mp hmem
        exact of_decide_eq_true this.2
      · have : ts = now := by simpa using hmem
        subst this
        norm_num
  · intro ip now st hlen hfresh
    have hfilter : (st ip).filter (fun ts => now - ts < 60) = st ip :=
      List.filter_eq_self.mpr (fun ts hm => decide_eq_true (hfresh ts hm))
    have h10 : 10 ≤ ((st ip).filter (fun ts => now - ts < 60)).length := by
      rw [hfilter, hlen]
    have hst : storeSet st ip ((st ip).filter (fun ts => now - ts < 60)) = st := by
      funext k
      by_cases hk : k = ip
      · subst hk; rw [storeSet_same, hfilter]
      · rw [storeSet_other _ _ _ _ hk]
    simp [check_rate_limit, if_pos h10, hst]

/-- Witness for C4: with ten timestamps 0,6,...,54 stored for client `"c"`,
an 11th check at time 59 is rejected and leaves the store unchanged. -/
theorem rate_limit_spec_witness :
    check_rate_limit "c" 59
        (storeSet emptyStore "c" [0, 6, 12, 18, 24, 30, 36, 42, 48, 54]) =
      (.error ⟨429, "Rate limit exceeded. Maximum 10 requests per minute."⟩,
       storeSet emptyStore "c" [0, 6, 12, 18, 24, 30, 36, 42, 48, 54]) := by
  refine rate_limit_spec.2.2.2.2 "c" 59 _ ?_ ?_
  · rw [storeSet_same]
    rfl
  · intro ts hts
    rw [storeSet_same] at hts
    fin_cases hts <;> norm_num

/-- Claim C10: a rate-limit check reads and writes only the checked
client's entry: every other client's stored window is unchanged, whether
the check allows or rejects. -/
theorem check_rate_limit_frame (ip : String) (now : ℚ) (st : RateStore)
    (other : String) (h : other ≠ ip) :
    ((check_rate_limit ip now st).2) other = st other := by
  unfold check_rate_limit
  by_cases h10 : 10 ≤ ((st ip).filter (fun ts => now - ts < 60)).length
  · simp [if_pos h10, storeSet, h]
  · simp [if_neg h10, storeSet, h]

/-- Witness for C10. -/
theorem check_rate_limit_frame_witness :
    ((check_rate_limit "a" 0 emptyStore).2) "b" = emptyStore "b" :=
  check_rate_limit_frame "a" 0 emptyStore "b" (by decide)

/-! ## `validate_filer_info` lemmas -/

theorem pyStrip_empty : pyStrip "" = "" := rfl

theorem filer_go_spec (l : List String) : ∀ acc : List String,
    (∀ item ∈ l, (pyStrip item).length ≠ 0 → item.length ≤ 1000) →
    validate_filer_info_go acc l =
      (if (acc ++ filerSurvivors l).length = 0
       then .error ⟨422, "No valid filer_info provided"⟩
       else .ok (acc ++ filerSurvivors l)) := by
  induction l with
  | nil =>
    intro acc _
    simp [validate_filer_info_go, filerSurvivors]
  | cons item rest ih =>
    intro acc h
    by_cases hz : (pyStrip item).length = 0
    · have hgo : validate_filer_info_go acc (item :: rest) =
          validate_filer_info_go acc rest := by
        simp [validate_filer_info_go, hz]
      have hsurv : filerSurvivors (item :: rest) = filerSurvivors rest := by
        simp [filerSurvivors, List.filter_cons, hz]
      rw [hgo, hsurv]
      exact ih acc (fun it hm hs => h it (List.mem_cons_of_mem _ hm) hs)
    · have hne : item ≠ "" := by
        intro he
        rw [he] at hz
        exact hz rfl
      have hlen : item.length ≤ 1000 := h item (List.mem_cons_self _ _) hz
      have hgo : validate_filer_info_go acc (item :: rest) =
          validate_filer_info_go (acc ++ [pyStrip item]) rest := by
        simp [validate_filer_info_go, hz, hne, Nat.not_lt.mpr hlen]
      have hsurv : filerSurvivors (item :: rest) = pyStrip item :: filerSurvivors rest := by
        simp [filerSurvivors, List.filter_cons, hz]
      rw [hgo, hsurv, ih (acc ++ [pyStrip item])
        (fun it hm hs => h it (List.mem_cons_of_mem _ hm) hs)]
      simp [List.append_assoc]
  
theorem filer_go_long (l : List String) : ∀ acc : List String,
    (∃ item ∈ l, (pyStrip item).length ≠ 0 ∧ 1000 < item.length) →
    validate_filer_info_go acc l =
      .error ⟨422, "filer_info item too long (max 1000 chars)"⟩ := by
  induction l with
  | nil =>
    rintro acc ⟨item, hm, _⟩
    cases hm
  | cons it rest ih =>
    rintro acc ⟨item, hm, hz, hl⟩
    by_cases hz' : (pyStrip it).length = 0
    · have : item ∈ rest := by
        rcases List.mem_cons.mp hm with he | hr
        · subst he; exact absurd hz' hz
        · exact hr
      have hgo : validate_filer_info_go acc (it :: rest) =
          validate_filer_info_go acc rest := by
        simp [validate_filer_info_go, hz']
      rw [hgo]
      exact ih acc ⟨item, this, hz, hl⟩
    · have hne : it ≠ "" := by
        intro he
        rw [he] at hz'
        exact hz' rfl
      by_cases hl' : 1000 < it.length
      · simp [validate_filer_info_go, hz', hne, hl']
      · have : item ∈ rest := by
          rcases List.mem_cons.mp hm with he | hr
          · subst he; exact absurd hl hl'
          · exact hr
        have hgo : validate_filer_info_go acc (it :: rest) =
            validate_filer_info_go (acc ++ [pyStrip it]) rest := by
          simp [validate_filer_info_go, hz', hne, hl']
        rw [hgo]
        exact ih _ ⟨item, this, hz, hl⟩

set_option maxRecDepth 40000 in
/-- Counterexample to C7 as stated: the item `"a" + 1000 spaces` trims to
`"a"` (1 character, within the limit), so the claim says validation
succeeds with `["a"]`; but the source checks `len(item) > 1000` on the
*untrimmed* item (1001 characters) and fails. -/
theorem validate_filer_info_cex :
    validate_filer_info [⟨'a' :: List.replicate 1000 ' '⟩] =
      .error ⟨422, "filer_info item too long (max 1000 chars)"⟩ ∧
    pyStrip ⟨'a' :: List.replicate 1000 ' '⟩ = "a" ∧
    (pyStrip ⟨'a' :: List.replicate 1000 ' '⟩).length ≤ 1000 := by
  refine ⟨rfl, rfl, by decide⟩

/-- Claim C7 (amended): `validate_filer_info` trims each entry, drops
entries that are empty after trimming, fails with "No valid filer_info
provided" when no entry survives (in particular on lists of whitespace-only
strings), fails with the too-long error when any surviving entry exceeds
1000 characters *before* trimming, and otherwise returns the trimmed
surviving entries. -/
theorem validate_filer_info_spec :
    (∀ l : List String,
      (∀ item ∈ l, (pyStrip item).length ≠ 0 → item.length ≤ 1000) →
      validate_filer_info l =
        (if filerSurvivors l = []
         then .error ⟨422, "No valid filer_info provided"⟩
         else .ok (filerSurvivors l))) ∧
    (∀ (l : List String) (item : String), item ∈ l → (pyStrip item).length ≠ 0 →
      1000 < item.length →
      validate_filer_info l = .error ⟨422, "filer_info item too long (max 1000 chars)"⟩) := by
  constructor
  · intro l h
    rw [validate_filer_info, filer_go_spec l [] h]
    simp [List.length_eq_zero]
  · intro l item hm hz hl
    exact filer_go_long l [] ⟨item, hm, hz, hl⟩

set_option maxRecDepth 40000 in
/-- Witness for C7 (amended): a whitespace-only list fails with the
"no valid filer_info" error; a normal list is trimmed. -/
theorem validate_filer_info_spec_witness :
    validate_filer_info ["  ", "\t"] = .error ⟨422, "No valid filer_info provided"⟩ ∧
    validate_filer_info [" a ", "", " b"] = .ok ["a", "b"] ∧
    validate_filer_info ["ok", ⟨'a' :: List.replicate 1000 ' '⟩] =
      .error ⟨422, "filer_info item too long (max 1000 chars)"⟩ := by
  refine ⟨?_, ?_, ?_⟩
  · rw [validate_filer_info_spec.1 ["  ", "\t"] (by decide)]
    rfl
  · rw [validate_filer_info_spec.1 [" a ", "", " b"] (by decide)]
    rfl
  · exact validate_filer_info_spec.2 _ ⟨'a' :: List.replicate 1000 ' '⟩
      (by simp) (by decide) (by decide)

/-! ## Validator status lemmas -/

theorem validate_filer_info_go_err_status :
    ∀ (l acc : List String) (e : HTTPError),
      validate_filer_info_go acc l = .error e → e.status = 422 := by
  intro l
  induction l with
  | nil =>
    intro acc e h
    unfold validate_filer_info_go at h
    split at h
    · cases h; rfl
    · cases h
  | cons item rest ih =>
    intro acc e h
    unfold validate_filer_info_go at h
    split at h
    · exact ih acc e h
    · split at h
      · cases h; rfl
      · exact ih _ e h

/-- Counterexample to C9 as stated: `validate_legal_document` raises with
HTTP status 500, which is not a 4xx status, on the empty document. -/
theorem validate_legal_document_cex :
    validate_legal_document "" = .error ⟨500, "Legal document generation failed"⟩ ∧
    ¬(400 ≤ (500 : Nat) ∧ (500 : Nat) ≤ 499) :=
  ⟨rfl, by decide⟩

/-- Claim C9 (amended): the request-field validators (`validate_website`,
`validate_filer_info`, `validate_resolution`) raise 422 (4xx) validation
errors on violation; `validate_legal_document` — which guards model output,
not request fields — fails exactly when the trimmed text is shorter than
100 characters, with a 500-status error, and otherwise returns the trimmed
text.  All of them are pure functions of their argument (they are embedded
with state-free types: none reads or writes the rate-limit store). -/
theorem request_validator_statuses :
    (∀ (url : String) (e : HTTPError),
      validate_website url = .error e → e.status = 422) ∧
    (∀ (l : List String) (e : HTTPError),
      validate_filer_info l = .error e → e.status = 422) ∧
    (∀ (t : String) (e : HTTPError),
      validate_resolution t = .error e → e.status = 422) ∧
    (∀ text : String, (pyStrip text).length < 100 →
      ∃ e, validate_legal_document text = .error e ∧ e.status = 500) ∧
    (∀ text : String, 100 ≤ (pyStrip text).length →
      validate_legal_document text = .ok (pyStrip text)) ∧
    (∀ (text : String) (e : HTTPError),
      validate_legal_document text = .error e → e.status = 500) := by
  refine ⟨?_, ?_, ?_, ?_, ?_, ?_⟩
  · intro url e h
    simp only [validate_website] at h
    by_cases hm : url_pattern_match url = true
    · rw [if_pos hm] at h
      cases h
    · rw [if_neg hm] at h
      by_cases hsw : (!(pyStartsWith "http://".data url.data
          || pyStartsWith "https://".data url.data)) = true
      · rw [if_pos hsw] at h
        by_cases hm2 : url_pattern_match ("https://" ++ url) = true
        · rw [if_pos hm2] at h
          cases h
        · rw [if_neg hm2] at h
          cases h
          rfl
      · rw [if_neg hsw] at h
        cases h
  · intro l e h
    exact validate_filer_info_go_err_status l [] e h
  · intro t e h
    unfold validate_resolution at h
    split_ifs at h
    cases h; rfl
  · intro text hlen
    by_cases he : text = ""
    · exact ⟨⟨500, "Legal document generation failed"⟩, by simp [validate_legal_document, he], rfl⟩
    · exact ⟨⟨500, "Generated legal document is too short"⟩,
        by simp [validate_legal_document, he, hlen], rfl⟩
  · intro text hlen
    have he : text ≠ "" := by
      intro h
      rw [h] at hlen
      simp [pyStrip_empty] at hlen
    have : ¬ (pyStrip text).length < 100 := by omega
    simp [validate_legal_document, he, this]
  · intro text e h
    simp only [validate_legal_document] at h
    by_cases he : text = ""
    · rw [if_pos he] at h
      cases h
      rfl
    · rw [if_neg he] at h
      by_cases hl : (pyStrip text).length < 100
      · rw [if_pos hl] at h
        cases h
        rfl
      · rw [if_neg hl] at h
        cases h

/-- Witness for C9 (amended). -/
theorem request_validator_statuses_witness :
    (⟨422, "Invalid website URL format"⟩ : HTTPError).status = 422 ∧
    (∃ e, validate_legal_document "" = .error e ∧ e.status = 500) ∧
    validate_legal_document ⟨List.replicate 120 'a'⟩ = .ok (pyStrip ⟨List.replicate 120 'a'⟩) :=
  ⟨request_validator_statuses.1 "notaurl" _ (by rfl),
   request_validator_statuses.2.2.2.1 "" (by decide),
   request_validator_statuses.2.2.2.2.1 ⟨List.replicate 120 'a'⟩ (by decide)⟩

/-! ## Contact formatting (C6) -/

/-- Counterexample to C6 as stated: the lone *empty* string is falsy in
`if not x:`, so it normalizes to the empty list and renders `"N/A"` instead
of becoming an `info` entry rendered as `"Info: "`. -/
theorem contacts_format_cex :
    format_contacts (normalize_contacts (.str "")) = "N/A" ∧
    normalize_contacts (.str "") = [] ∧
    "N/A" ≠ "Info: " :=
  ⟨rfl, rfl, by decide⟩

/-- Claim C6 (amended): a contacts argument that is none or an empty
sequence (or a lone *empty* string, which is equally falsy) renders as
exactly `"N/A"`; a lone *non-empty* string normalizes to a single entry of
kind `info`; and a non-empty normalized sequence of `{type, value}` entries
renders as the entries' capitalized kinds and values in the form
`"Kind: value"`, joined by `", "`. -/
theorem contacts_format_spec :
    format_contacts (normalize_contacts .none) = "N/A" ∧
    format_contacts (normalize_contacts (.list [])) = "N/A" ∧
    format_contacts (normalize_contacts (.str "")) = "N/A" ∧
    (∀ s : String, s ≠ "" →
      normalize_contacts (.str s) = [.dict [("type", "info"), ("value", s)]]) ∧
    (∀ pairs : List (String × String), pairs ≠ [] →
      format_contacts (pairs.map fun tv => .dict [("type", tv.1), ("value", tv.2)]) =
        String.intercalate ", " (pairs.map fun tv => pyCapitalize tv.1 ++ ": " ++ tv.2)) := by
  refine ⟨rfl, rfl, rfl, ?_, ?_⟩
  · intro s hs
    simp [normalize_contacts, hs]
  · intro pairs h
    rw [format_contacts, if_neg (by simpa using h), List.map_map]
    rfl

/-- Witness for C6 (amended). -/
theorem contacts_format_spec_witness :
    normalize_contacts (.str "x") = [.dict [("type", "info"), ("value", "x")]] ∧
    format_contacts ([("phone", "123"), ("EMAIL", "a@b.c")].map
        fun tv => .dict [("type", tv.1), ("value", tv.2)]) = "Phone: 123, Email: a@b.c" := by
  refine ⟨contacts_format_spec.2.2.2.1 "x" (by decide), ?_⟩
  rw [contacts_format_spec.2.2.2.2 [("phone", "123"), ("EMAIL", "a@b.c")] (by decide)]
  rfl

/-! ## `validate_website` lemmas (C1) -/

theorem pyStartsWith_append_ext (p : List Char) : ∀ (l2 ext : List Char),
    pyStartsWith p l2 = true → pyStartsWith p (l2 ++ ext) = true := by
  induction p with
  | nil => intro l2 ext _; rfl
  | cons a p' ih =>
    intro l2 ext h
    cases l2 with
    | nil => simp [pyStartsWith] at h
    | cons b l2' =>
      simp only [pyStartsWith, Bool.and_eq_true] at h
      simp only [List.cons_append, pyStartsWith, Bool.and_eq_true]
      exact ⟨h.1, ih l2' ext h.2⟩

theorem dropOneTrailingNL_pre (l : List Char) :
    ∃ ext, l = dropOneTrailingNL l ++ ext := by
  unfold dropOneTrailingNL
  split
  · next heq =>
    have hne : l ≠ [] := by
      intro h
      subst h
      simp at heq
    refine ⟨['\n'], ?_⟩
    have hg : l.getLast hne = '\n' := by
      have := List.getLast?_eq_getLast l hne
      rw [heq] at this
      exact (Option.some.injEq _ _).mp this.symm
    conv_lhs => rw [← List.dropLast_append_getLast hne]
    rw [hg]
  · exact ⟨[], by simp⟩

theorem startsWith_dropNL (p l : List Char)
    (h : pyStartsWith p (dropOneTrailingNL l) = true) :
    pyStartsWith p l = true := by
  obtain ⟨ext, hext⟩ := dropOneTrailingNL_pre l
  rw [hext]
  exact pyStartsWith_append_ext p _ ext h

theorem dropOneTrailingNL_of_nl (l : List Char) (h : l.getLast? = some '\n') :
    dropOneTrailingNL l = l.dropLast := by
  unfold dropOneTrailingNL
  rw [h]
  rfl

theorem dropOneTrailingNL_of_ne (l : List Char) (h : l.getLast? ≠ some '\n') :
    dropOneTrailingNL l = l := by
  unfold dropOneTrailingNL
  split
  · next heq => exact absurd heq h
  · rfl

theorem dropNL_scheme (l : List Char) :
    dropOneTrailingNL ("https://".data ++ l) = "https://".data ++ dropOneTrailingNL l := by
  cases l with
  | nil => rfl
  | cons c t =>
    have hne : (c :: t) ≠ ([] : List Char) := by simp
    by_cases hnl : (c :: t).getLast? = some '\n'
    · have h1 : ("https://".data ++ (c :: t)).getLast? = some '\n' := by
        rw [List.getLast?_append_of_ne_nil _ hne]
        exact hnl
      rw [dropOneTrailingNL_of_nl _ h1, dropOneTrailingNL_of_nl _ hnl,
        List.dropLast_append_of_ne_nil _ hne]
    · have h1 : ("https://".data ++ (c :: t)).getLast? ≠ some '\n' := by
        rw [List.getLast?_append_of_ne_nil _ hne]
        exact hnl
      rw [dropOneTrailingNL_of_ne _ h1, dropOneTrailingNL_of_ne _ hnl]

/-- Central C1 lemma: for an input without an `http://`/`https://` scheme,
prefixing `https://` does not change whether the URL pattern matches — the
scheme group of the pattern is optional, so such an input matches after
prefixing exactly when it already matched. -/
theorem url_match_prefix_equiv (url : String)
    (h1 : pyStartsWith "http://".data url.data = false)
    (h2 : pyStartsWith "https://".data url.data = false) :
    url_pattern_match ("https://" ++ url) = url_pattern_match url := by
  have hd : ("https://" ++ url).data = "https://".data ++ url.data :=
    String.data_append _ _
  have h1' : pyStartsWith "http://".data (dropOneTrailingNL url.data) = false := by
    cases hx : pyStartsWith "http://".data (dropOneTrailingNL url.data)
    · rfl
    · rw [startsWith_dropNL _ _ hx] at h1
      cases h1
  have h2' : pyStartsWith "https://".data (dropOneTrailingNL url.data) = false := by
    cases hx : pyStartsWith "https://".data (dropOneTrailingNL url.data)
    · rfl
    · rw [startsWith_dropNL _ _ hx] at h2
      cases h2
  unfold url_pattern_match
  rw [hd, dropNL_scheme]
  have hsw1 : pyStartsWith "http://".data ("https://".data ++ dropOneTrailingNL url.data)
      = false := rfl
  have hsw2 : pyStartsWith "https://".data ("https://".data ++ dropOneTrailingNL url.data)
      = true := by
    have : pyStartsWith "https://".data ("https://".data ++ dropOneTrailingNL url.data)
        = pyStartsWith ([] : List Char) (dropOneTrailingNL url.data) := by
      simp [pyStartsWith]
    rw [this]
    rfl
  have hdrop : ("https://".data ++ dropOneTrailingNL url.data).drop 8
      = dropOneTrailingNL url.data := by
    have : ("https://".data).length = 8 := rfl
    rw [← this, List.drop_left]
  simp only [hsw1, hsw2, h1', h2', hdrop, Bool.false_eq_true, if_false, if_true]

/-- Counterexample to C1 as stated: `"a.com"` lacks a scheme and matches
the pattern after prefixing `https://`, yet `validate_website` returns it
unchanged (not prefixed) because the scheme group is optional and the bare
input already matches; and `"http://"` matches neither as-is nor with the
(hypothetical) prefix retry, yet is returned unchanged rather than
rejected, because the retry branch is guarded by `not url.startswith`. -/
theorem validate_website_cex :
    validate_website "a.com" = .ok "a.com" ∧
    pyStartsWith "http://".data "a.com".data = false ∧
    pyStartsWith "https://".data "a.com".data = false ∧
    url_pattern_match ("https://" ++ "a.com") = true ∧
    (Except.ok "a.com" : Except HTTPError String) ≠ .ok "https://a.com" ∧
    validate_website "http://" = .ok "http://" ∧
    url_pattern_match "http://" = false ∧
    url_pattern_match ("https://" ++ "http://") = false := by
  refine ⟨rfl, rfl, rfl, rfl, ?_, rfl, rfl, rfl⟩
  intro h
  injection h with h'
  exact absurd h' (by decide)

/-- Claim C1 (amended): `validate_website` returns its input unchanged
exactly when the input matches the URL pattern or starts with `http://` or
`https://`, and it raises the 422 validation error otherwise; the
`https://`-prefix retry never produces a successful return of the prefixed
form, because an input without a scheme matches after prefixing exactly
when it already matches on its own (the scheme group is optional). -/
theorem validate_website_spec (url : String) :
    validate_website url =
      (if url_pattern_match url
          || pyStartsWith "http://".data url.data
          || pyStartsWith "https://".data url.data
       then .ok url
       else .error ⟨422, "Invalid website URL format"⟩) := by
  unfold validate_website
  by_cases hm : url_pattern_match url = true
  · simp [hm]
  · have hm' : url_pattern_match url = false := by
      cases hx : url_pattern_match url
      · rfl
      · exact absurd hx hm
    cases hx1 : pyStartsWith "http://".data url.data
    · cases hx2 : pyStartsWith "https://".data url.data
      · have heq := url_match_prefix_equiv url hx1 hx2
        simp [hm', hx1, hx2, heq]
      · simp [hm', hx1, hx2]
    · simp [hm', hx1]

/-! ## Engine meta-lemmas (C2, C3)

`mrun_spec` relates a successful matcher run to its continuation call: the
consumed prefix `pre` satisfies `s = pre ++ s'`, the continuation receives
as `prev` the last consumed character, an empty `pre` forces the pattern to
be nullable, and the first/last consumed characters lie in the syntactic
first/last sets. -/

theorem mrun_spec (fuel : Nat) :
    ∀ (r : Re) (prev : Option Char) (s : List Char)
      (k : Option Char → List Char → Option (List Char)) (out : List Char),
      mrun fuel r prev s k = some out →
      ∃ p' s' pre, k p' s' = some out ∧ s = pre ++ s' ∧
        (pre = [] → p' = prev ∧ nullable r = true) ∧
        (∀ d ds, pre = d :: ds → firstSet r d = true) ∧
        (∀ ds d, pre = ds ++ [d] → p' = some d ∧ lastSet r d = true) := by
  induction fuel with
  | zero =>
    intro r prev s k out h
    simp [mrun] at h
  | succ fuel ih =>
    intro r prev s k out h
    cases r with
    | eps =>
      simp only [mrun] at h
      refine ⟨prev, s, [], h, rfl, fun _ => ⟨rfl, rfl⟩, ?_, ?_⟩
      · intro d ds hh
        cases hh
      · intro ds d hh
        exact absurd hh.symm (by simp)
    | cls p =>
      cases s with
      | nil => simp [mrun] at h
      | cons c rest =>
        simp only [mrun] at h
        by_cases hpc : p c = true
        · rw [if_pos hpc] at h
          refine ⟨some c, rest, [c], h, rfl, ?_, ?_, ?_⟩
          · intro hh
            cases hh
          · intro d ds hh
            injection hh with h1 _
            rw [← h1]
            exact hpc
          · intro ds d hh
            cases ds with
            | nil =>
              injection hh with h1 _
              rw [← h1]
              exact ⟨rfl, hpc⟩
            | cons x xs =>
              injection hh with _ h2
              exact absurd h2.symm (by simp)
        · rw [if_neg hpc] at h
          cases h
    | seq a b =>
      simp only [mrun] at h
      obtain ⟨p1, s1, pre1, hk1, hs1, hnil1, hfirst1, hlast1⟩ := ih a prev s _ out h
      obtain ⟨p', s', pre2, hk2, hs2, hnil2, hfirst2, hlast2⟩ := ih b p1 s1 k out hk1
      refine ⟨p', s', pre1 ++ pre2, hk2, by rw [hs1, hs2, List.append_assoc], ?_, ?_, ?_⟩
      · intro hh
        obtain ⟨h1, h2⟩ := List.append_eq_nil.mp hh
        obtain ⟨hp1, hn1⟩ := hnil1 h1
        obtain ⟨hp2, hn2⟩ := hnil2 h2
        exact ⟨hp2.trans hp1, by simp [nullable, hn1, hn2]⟩
      · intro d ds hh
        cases pre1 with
        | nil =>
          obtain ⟨hp1, hn1⟩ := hnil1 rfl
          simp only [List.nil_append] at hh
          have hf := hfirst2 d ds hh
          simp [firstSet, hn1, hf]
        | cons x xs =>
          injection hh with h1 _
          have hf := hfirst1 x xs rfl
          rw [← h1]
          simp [firstSet, hf]
      · intro ds d hh
        rcases List.eq_nil_or_concat pre2 with h2 | ⟨ds2, d2, h2⟩
        · subst h2
          obtain ⟨hp2, hn2⟩ := hnil2 rfl
          simp only [List.append_nil] at hh
          obtain ⟨hpd, hl⟩ := hlast1 ds d hh
          refine ⟨hp2.trans hpd, ?_⟩
          simp [lastSet, hn2, hl]
        · rw [List.concat_eq_append] at h2
          subst h2
          obtain ⟨hpd, hl⟩ := hlast2 ds2 d2 rfl
          have hgl : d2 = d := by
            have h' : (pre1 ++ ds2) ++ [d2] = ds ++ [d] := by
              rw [List.append_assoc]
              exact hh
            have := congrArg List.getLast? h'
            simpa using this
          subst hgl
          exact ⟨hpd, by simp [lastSet, hl]⟩
    | alt a b =>
      simp only [mrun] at h
      cases heq : mrun fuel a prev s k with
      | some r =>
        rw [heq] at h
        cases h
        obtain ⟨p', s', pre, hk, hs, hnil, hfirst, hlast⟩ := ih a prev s k _ heq
        refine ⟨p', s', pre, hk, hs, ?_, ?_, ?_⟩
        · intro hh
          obtain ⟨hp, hn⟩ := hnil hh
          exact ⟨hp, by simp [nullable, hn]⟩
        · intro d ds hh
          have := hfirst d ds hh
          simp [firstSet, this]
        · intro ds d hh
          obtain ⟨hp, hl⟩ := hlast ds d hh
          exact ⟨hp, by simp [lastSet, hl]⟩
      | none =>
        rw [heq] at h
        obtain ⟨p', s', pre, hk, hs, hnil, hfirst, hlast⟩ := ih b prev s k out h
        refine ⟨p', s', pre, hk, hs, ?_, ?_, ?_⟩
        · intro hh
          obtain ⟨hp, hn⟩ := hnil hh
          exact ⟨hp, by simp [nullable, hn]⟩
        · intro d ds hh
          have := hfirst d ds hh
          simp [firstSet, this]
        · intro ds d hh
          obtain ⟨hp, hl⟩ := hlast ds d hh
          exact ⟨hp, by simp [lastSet, hl]⟩
    | star a =>
      simp only [mrun] at h
      cases heq : mrun fuel a prev s (fun p' s' => mrun fuel (.star a) p' s' k) with
      | some r =>
        rw [heq] at h
        cases h
        obtain ⟨p1, s1, pre1, hk1, hs1, hnil1, hfirst1, hlast1⟩ := ih a prev s _ _ heq
        obtain ⟨p', s', pre2, hk2, hs2, hnil2, hfirst2, hlast2⟩ := ih (.star a) p1 s1 k _ hk1
        refine ⟨p', s', pre1 ++ pre2, hk2, by rw [hs1, hs2, List.append_assoc], ?_, ?_, ?_⟩
        · intro hh
          obtain ⟨h1, h2⟩ := List.append_eq_nil.mp hh
          obtain ⟨hp1, _⟩ := hnil1 h1
          obtain ⟨hp2, _⟩ := hnil2 h2
          exact ⟨hp2.trans hp1, rfl⟩
        · intro d ds hh
          cases pre1 with
          | nil =>
            simp only [List.nil_append] at hh
            exact hfirst2 d ds hh
          | cons x xs =>
            injection hh with h1 _
            have hf := hfirst1 x xs rfl
            rw [← h1]
            exact hf
        · intro ds d hh
          rcases List.eq_nil_or_concat pre2 with h2 | ⟨ds2, d2, h2⟩
          · subst h2
            obtain ⟨hp2, _⟩ := hnil2 rfl
            simp only [List.append_nil] at hh
            obtain ⟨hpd, hl⟩ := hlast1 ds d hh
            exact ⟨hp2.trans hpd, hl⟩
          · rw [List.concat_eq_append] at h2
            subst h2
            obtain ⟨hpd, hl⟩ := hlast2 ds2 d2 rfl
            have hgl : d2 = d := by
              have h' : (pre1 ++ ds2) ++ [d2] = ds ++ [d] := by
                rw [List.append_assoc]
                exact hh
              have := congrArg List.getLast? h'
              simpa using this
            subst hgl
            exact ⟨hpd, hl⟩
      | none =>
        rw [heq] at h
        refine ⟨prev, s, [], h, rfl, fun _ => ⟨rfl, rfl⟩, ?_, ?_⟩
        · intro d ds hh
          cases hh
        · intro ds d hh
          exact absurd hh.symm (by simp)
    | starL a =>
      simp only [mrun] at h
      cases heq : k prev s with
      | some r =>
        rw [heq] at h
        cases h
        refine ⟨prev, s, [], heq, rfl, fun _ => ⟨rfl, rfl⟩, ?_, ?_⟩
        · intro d ds hh
          cases hh
        · intro ds d hh
          exact absurd hh.symm (by simp)
      | none =>
        rw [heq] at h
        obtain ⟨p1, s1, pre1, hk1, hs1, hnil1, hfirst1, hlast1⟩ := ih a prev s _ _ h
        obtain ⟨p', s', pre2, hk2, hs2, hnil2, hfirst2, hlast2⟩ := ih (.starL a) p1 s1 k _ hk1
        refine ⟨p', s', pre1 ++ pre2, hk2, by rw [hs1, hs2, List.append_assoc], ?_, ?_, ?_⟩
        · intro hh
          obtain ⟨h1, h2⟩ := List.append_eq_nil.mp hh
          obtain ⟨hp1, _⟩ := hnil1 h1
          obtain ⟨hp2, _⟩ := hnil2 h2
          exact ⟨hp2.trans hp1, rfl⟩
        · intro d ds hh
          cases pre1 with
          | nil =>
            simp only [List.nil_append] at hh
            exact hfirst2 d ds hh
          | cons x xs =>
            injection hh with h1 _
            have hf := hfirst1 x xs rfl
            rw [← h1]
            exact hf
        · intro ds d hh
          rcases List.eq_nil_or_concat pre2 with h2 | ⟨ds2, d2, h2⟩
          · subst h2
            obtain ⟨hp2, _⟩ := hnil2 rfl
            simp only [List.append_nil] at hh
            obtain ⟨hpd, hl⟩ := hlast1 ds d hh
            exact ⟨hp2.trans hpd, hl⟩
          · rw [List.concat_eq_append] at h2
            subst h2
            obtain ⟨hpd, hl⟩ := hlast2 ds2 d2 rfl
            have hgl : d2 = d := by
              have h' : (pre1 ++ ds2) ++ [d2] = ds ++ [d] := by
                rw [List.append_assoc]
                exact hh
              have := congrArg List.getLast? h'
              simpa using this
            subst hgl
            exact ⟨hpd, hl⟩
    | wordB =>
      simp only [mrun] at h
      by_cases hb : (wordAt prev != wordHead s) = true
      · rw [if_pos hb] at h
        refine ⟨prev, s, [], h, rfl, fun _ => ⟨rfl, rfl⟩, ?_, ?_⟩
        · intro d ds hh
          cases hh
        · intro ds d hh
          exact absurd hh.symm (by simp)
      · rw [if_neg hb] at h
        cases h

theorem reSearchTry_spec (r : Re) (s : List Char) (i : Nat) (prev : Option Char)
    (a b : Nat) (h : reSearchTry r s i prev = some (a, b)) :
    ∃ pre rest, s = pre ++ rest ∧ a = i ∧ b = a + pre.length ∧
      (pre = [] → nullable r = true) ∧
      (∀ d ds, pre = d :: ds → firstSet r d = true) ∧
      (∀ ds d, pre = ds ++ [d] → lastSet r d = true) := by
  unfold reSearchTry at h
  cases heq : mrun ((s.length + 2) * 100) r prev s (fun _ rest => some rest) with
  | some rest0 =>
    rw [heq] at h
    injection h with h'
    injection h' with ha hb
    obtain ⟨p', s', pre, hk, hs, hnil, hfirst, hlast⟩ :=
      mrun_spec _ r prev s _ rest0 heq
    have hs' : s' = rest0 := by injection hk
    subst hs'
    have hlen : s.length = pre.length + s'.length := by
      rw [hs]
      simp
    refine ⟨pre, s', hs, ha.symm, by omega, fun hp => (hnil hp).2, hfirst,
      fun ds d hd => (hlast ds d hd).2⟩
  | none =>
    rw [heq] at h
    cases h

theorem reSearchAux_spec (r : Re) :
    ∀ (s : List Char) (i : Nat) (prev : Option Char) (a b : Nat),
      reSearchAux r s i prev = some (a, b) →
      ∃ skip pre rest, s = skip ++ pre ++ rest ∧ a = i + skip.length ∧
        b = a + pre.length ∧
        (pre = [] → nullable r = true) ∧
        (∀ d ds, pre = d :: ds → firstSet r d = true) ∧
        (∀ ds d, pre = ds ++ [d] → lastSet r d = true) := by
  intro s
  induction s with
  | nil =>
    intro i prev a b h
    unfold reSearchAux at h
    obtain ⟨pre, rest, hs, ha, hb, hnil, hfirst, hlast⟩ :=
      reSearchTry_spec r [] i prev a b h
    exact ⟨[], pre, rest, by simpa using hs, by simpa using ha, hb, hnil, hfirst, hlast⟩
  | cons c t ihs =>
    intro i prev a b h
    unfold reSearchAux at h
    cases heq : reSearchTry r (c :: t) i prev with
    | some res =>
      rw [heq] at h
      cases h
      obtain ⟨pre, rest, hs, ha, hb, hnil, hfirst, hlast⟩ :=
        reSearchTry_spec r (c :: t) i prev a b heq
      exact ⟨[], pre, rest, by simpa using hs, by simpa using ha, hb, hnil, hfirst, hlast⟩
    | none =>
      rw [heq] at h
      obtain ⟨skip, pre, rest, hs, ha, hb, hnil, hfirst, hlast⟩ :=
        ihs (i + 1) (some c) a b h
      refine ⟨c :: skip, pre, rest, by rw [hs]; simp, ?_, hb, hnil, hfirst, hlast⟩
      simp only [List.length_cons]
      omega

theorem reSearch_spec (r : Re) (s : String) (a b : Nat)
    (h : reSearch r s = some (a, b)) :
    ∃ skip pre rest, s.data = skip ++ pre ++ rest ∧ a = skip.length ∧
      b = a + pre.length ∧
      (pre = [] → nullable r = true) ∧
      (∀ d ds, pre = d :: ds → firstSet r d = true) ∧
      (∀ ds d, pre = ds ++ [d] → lastSet r d = true) := by
  obtain ⟨skip, pre, rest, h1, h2, h3, h4, h5, h6⟩ :=
    reSearchAux_spec r s.data 0 none a b h
  exact ⟨skip, pre, rest, h1, by omega, h3, h4, h5, h6⟩

/-- The matched span slices back out of the text. -/
theorem pySlice_of_decomp (text : String) (skip pre rest : List Char) (a b : Nat)
    (hdata : text.data = skip ++ pre ++ rest) (ha : a = skip.length)
    (hb : b = a + pre.length) :
    (pySlice text a b).data = pre := by
  subst ha
  subst hb
  unfold pySlice
  show ((text.data.drop skip.length).take (skip.length + pre.length - skip.length)) = pre
  have harith : skip.length + pre.length - skip.length = pre.length := by omega
  rw [hdata, List.append_assoc, List.drop_left, harith, List.take_left]

/-! ## Character-class bounds -/

theorem char_isAlpha_bounds (c : Char) (h : c.isAlpha = true) :
    33 ≤ c.toNat ∧ c.toNat ≤ 126 := by
  simp [Char.isAlpha, Char.isUpper, Char.isLower] at h
  rcases h with ⟨h1, h2⟩ | ⟨h1, h2⟩
  · have g1 : 65 ≤ c.toNat := h1
    have g2 : c.toNat ≤ 90 := h2
    omega
  · have g1 : 97 ≤ c.toNat := h1
    have g2 : c.toNat ≤ 122 := h2
    omega

theorem char_isDigit_bounds (c : Char) (h : c.isDigit = true) :
    33 ≤ c.toNat ∧ c.toNat ≤ 126 := by
  simp [Char.isDigit] at h
  obtain ⟨h1, h2⟩ := h
  have g1 : 48 ≤ c.toNat := h1
  have g2 : c.toNat ≤ 57 := h2
  omega

theorem printable_not_space (c : Char) (h1 : 33 ≤ c.toNat) (h2 : c.toNat ≤ 126) :
    pyIsSpace c = false := by
  simp only [pyIsSpace, Bool.or_eq_false_iff, Bool.and_eq_false_iff,
    decide_eq_false_iff_not]
  omega

theorem firstSet_email_printable (c : Char) (h : firstSet emailRe c = true) :
    33 ≤ c.toNat ∧ c.toNat ≤ 126 := by
  simp [emailRe, firstSet, nullable, rPlus, rAtLeast, rRepThen, rChr] at h
  simp [emailLocalChar] at h
  rcases h with (((((h | h) | h) | h) | h) | h) | h
  · exact char_isAlpha_bounds c h
  · exact char_isDigit_bounds c h
  · subst h; decide
  · subst h; decide
  · subst h; decide
  · subst h; decide
  · subst h; decide

theorem lastSet_email_printable (c : Char) (h : lastSet emailRe c = true) :
    33 ≤ c.toNat ∧ c.toNat ≤ 126 := by
  simp [emailRe, lastSet, nullable, rPlus, rAtLeast, rRepThen, rChr] at h
  exact char_isAlpha_bounds c h

theorem firstSet_phone_printable (c : Char) (h : firstSet phoneRe c = true) :
    33 ≤ c.toNat ∧ c.toNat ≤ 126 := by
  simp [phoneRe, firstSet, nullable, rOpt, rPlus, rOneUpTo, rUpTo, rRepThen, rChr] at h
  rcases h with (h | h | h) | h
  · subst h; decide
  · subst h; decide
  · exact char_isDigit_bounds c h
  · exact char_isDigit_bounds c h

theorem lastSet_phone_printable (c : Char) (h : lastSet phoneRe c = true) :
    33 ≤ c.toNat ∧ c.toNat ≤ 126 := by
  simp [phoneRe, lastSet, nullable, rOpt, rPlus, rOneUpTo, rUpTo, rRepThen, rChr] at h
  exact char_isDigit_bounds c h

/-! ## Strip/window lemmas -/

theorem dropWhile_append_of_head (p : Char → Bool) (w1 : List Char) (c : Char)
    (t : List Char) (hc : p c = false) :
    List.dropWhile p (w1 ++ c :: t) = List.dropWhile p w1 ++ c :: t := by
  induction w1 with
  | nil => simp [List.dropWhile_cons, hc]
  | cons a w1' ih =>
    cases hpa : p a
    · simp [List.dropWhile_cons, hpa]
    · simp [List.dropWhile_cons, hpa, ih]

theorem pyStripL_decomp (w1 m w2 : List Char) (c0 : Char) (t0 : List Char)
    (hm : m = c0 :: t0) (h0 : pyIsSpace c0 = false)
    (ds : List Char) (dl : Char) (hml : m = ds ++ [dl]) (hl : pyIsSpace dl = false) :
    ∃ x y, pyStripL (w1 ++ m ++ w2) = x ++ m ++ y := by
  refine ⟨w1.dropWhile pyIsSpace, (w2.reverse.dropWhile pyIsSpace).reverse, ?_⟩
  unfold pyStripL
  have e1 : (w1 ++ m ++ w2).dropWhile pyIsSpace
      = w1.dropWhile pyIsSpace ++ m ++ w2 := by
    rw [List.append_assoc, hm]
    rw [show (c0 :: t0) ++ w2 = c0 :: (t0 ++ w2) from rfl]
    rw [dropWhile_append_of_head pyIsSpace w1 c0 (t0 ++ w2) h0]
    simp [List.append_assoc]
  rw [e1]
  have hmr : m.reverse = dl :: ds.reverse := by
    rw [hml]
    simp
  have e2 : (w1.dropWhile pyIsSpace ++ m ++ w2).reverse.dropWhile pyIsSpace
      = w2.reverse.dropWhile pyIsSpace
        ++ dl :: (ds.reverse ++ (w1.dropWhile pyIsSpace).reverse) := by
    rw [List.reverse_append, List.reverse_append, hmr]
    rw [show (dl :: ds.reverse) ++ (w1.dropWhile pyIsSpace).reverse
        = dl :: (ds.reverse ++ (w1.dropWhile pyIsSpace).reverse) from rfl]
    rw [dropWhile_append_of_head pyIsSpace w2.reverse dl _ hl]
  rw [e2]
  rw [show (dl :: (ds.reverse ++ (w1.dropWhile pyIsSpace).reverse))
      = (dl :: ds.reverse) ++ (w1.dropWhile pyIsSpace).reverse from rfl]
  rw [← hmr, ← List.append_assoc, List.reverse_append, List.reverse_append]
  simp [List.append_assoc]

theorem pySlice_window_decomp (text : String) (cc s e : Nat)
    (skip pre rest : List Char)
    (hdata : text.data = skip ++ pre ++ rest) (hs : s = skip.length)
    (he : e = s + pre.length) :
    ∃ w1 w2, (pySlice text (s - cc) (min text.length (e + cc))).data
      = w1 ++ pre ++ w2 := by
  subst hs
  subst he
  have hstart : skip.length - cc ≤ skip.length := Nat.sub_le _ _
  have hlen_text : text.length = skip.length + pre.length + rest.length := by
    show text.data.length = _
    rw [hdata]
    simp [List.length_append]
    omega
  refine ⟨skip.drop (skip.length - cc),
    rest.take (min text.length (skip.length + pre.length + cc)
      - (skip.length - cc) - (skip.length - (skip.length - cc)) - pre.length), ?_⟩
  unfold pySlice
  show (text.data.drop (skip.length - cc)).take
      (min text.length (skip.length + pre.length + cc) - (skip.length - cc)) = _
  rw [hdata, List.append_assoc, List.drop_append_of_le_length hstart]
  rw [List.take_append_eq_append_take]
  have hdl : (skip.drop (skip.length - cc)).length = skip.length - (skip.length - cc) :=
    List.length_drop _ _
  have htk1 : (skip.drop (skip.length - cc)).take
      (min text.length (skip.length + pre.length + cc) - (skip.length - cc))
      = skip.drop (skip.length - cc) := by
    apply List.take_of_length_le
    rw [hdl]
    omega
  rw [htk1, List.take_append_eq_append_take]
  have htk2 : pre.take (min text.length (skip.length + pre.length + cc)
      - (skip.length - cc) - (skip.drop (skip.length - cc)).length) = pre := by
    apply List.take_of_length_le
    rw [hdl]
    omega
  rw [htk2, hdl, List.append_assoc]

theorem pyStrip_length_bound (text : String) (cc s e : Nat)
    (hse : s ≤ e) (_hel : e ≤ text.length) :
    (pyStrip (pySlice text (s - cc) (min text.length (e + cc)))).length ≤
      min text.length (2 * cc + (e - s)) := by
  have h1 : (pyStrip (pySlice text (s - cc) (min text.length (e + cc)))).length
      ≤ (pySlice text (s - cc) (min text.length (e + cc))).length :=
    pyStripL_length_le _
  have h2 : (pySlice text (s - cc) (min text.length (e + cc))).length
      = min (min text.length (e + cc) - (s - cc)) (text.length - (s - cc)) := by
    show ((text.data.drop (s - cc)).take (min text.length (e + cc) - (s - cc))).length = _
    rw [List.length_take, List.length_drop]
    rfl
  omega

/-! ## Anchor lemmas and the C2 theorem -/

theorem extract_anchor_cases (text : String) (s e : Nat)
    (h : extract_anchor text = some (s, e)) :
    reSearch emailRe text = some (s, e) ∨ reSearch phoneRe text = some (s, e) := by
  unfold extract_anchor at h
  cases he : reSearch emailRe text with
  | none =>
    cases hp : reSearch phoneRe text with
    | none =>
      rw [he, hp] at h
      cases h
    | some pm =>
      rw [he, hp] at h
      right
      exact h
  | some em =>
    cases hp : reSearch phoneRe text with
    | none =>
      rw [he, hp] at h
      left
      exact h
    | some pm =>
      rw [he, hp] at h
      have h'' : some (if em.1 < pm.1 then em else pm) = some (s, e) := h
      by_cases hlt : em.1 < pm.1
      · left
        rw [if_pos hlt] at h''
        exact h''
      · right
        rw [if_neg hlt] at h''
        exact h''

theorem anchor_decomp (text : String) (s e : Nat)
    (h : extract_anchor text = some (s, e)) :
    ∃ skip pre rest, text.data = skip ++ pre ++ rest ∧ s = skip.length ∧
      e = s + pre.length ∧ pre ≠ [] ∧
      (∀ d ds, pre = d :: ds → pyIsSpace d = false) ∧
      (∀ ds d, pre = ds ++ [d] → pyIsSpace d = false) := by
  rcases extract_anchor_cases text s e h with hs | hs
  · obtain ⟨skip, pre, rest, h1, h2, h3, h4, h5, h6⟩ := reSearch_spec _ _ _ _ hs
    refine ⟨skip, pre, rest, h1, h2, h3, ?_, ?_, ?_⟩
    · intro hp
      have := h4 hp
      rw [show nullable emailRe = false from rfl] at this
      cases this
    · intro d ds hd
      obtain ⟨hb1, hb2⟩ := firstSet_email_printable d (h5 d ds hd)
      exact printable_not_space d hb1 hb2
    · intro ds d hd
      obtain ⟨hb1, hb2⟩ := lastSet_email_printable d (h6 ds d hd)
      exact printable_not_space d hb1 hb2
  · obtain ⟨skip, pre, rest, h1, h2, h3, h4, h5, h6⟩ := reSearch_spec _ _ _ _ hs
    refine ⟨skip, pre, rest, h1, h2, h3, ?_, ?_, ?_⟩
    · intro hp
      have := h4 hp
      rw [show nullable phoneRe = false from rfl] at this
      cases this
    · intro d ds hd
      obtain ⟨hb1, hb2⟩ := firstSet_phone_printable d (h5 d ds hd)
      exact printable_not_space d hb1 hb2
    · intro ds d hd
      obtain ⟨hb1, hb2⟩ := lastSet_phone_printable d (h6 ds d hd)
      exact printable_not_space d hb1 hb2

/-- Claim C2: `extract_contact_chunks` returns none iff neither the email
pattern nor the phone pattern matches; otherwise, with the anchor the
single match or, when both match, the one with the lower start offset
(`extract_anchor`), the result is the slice
`pageText[max(0, start - c) : min(len, end + c)]` stripped of surrounding
whitespace, its length is at most `min(len, 2*c + matchLength)`, and it
contains the anchor match. -/
theorem extract_contact_chunks_spec (text : String) (c : Nat) :
    (extract_contact_chunks text c = none ↔
      reSearch emailRe text = none ∧ reSearch phoneRe text = none) ∧
    (∀ s e, extract_anchor text = some (s, e) →
      extract_contact_chunks text c =
        some (pyStrip (pySlice text (s - c) (min text.length (e + c)))) ∧
      (pyStrip (pySlice text (s - c) (min text.length (e + c)))).length ≤
        min text.length (2 * c + (e - s)) ∧
      containsSub (pyStrip (pySlice text (s - c) (min text.length (e + c))))
        (pySlice text s e)) := by
  constructor
  · unfold extract_contact_chunks extract_anchor
    cases he : reSearch emailRe text <;> cases hp : reSearch phoneRe text <;> simp
  · intro s e hanch
    have heq : extract_contact_chunks text c =
        some (pyStrip (pySlice text (s - c) (min text.length (e + c)))) := by
      unfold extract_contact_chunks
      rw [hanch]
    obtain ⟨skip, pre, rest, hdata, hsk, hel, hpne, hfirst, hlast⟩ :=
      anchor_decomp text s e hanch
    have hlen_text : text.length = skip.length + pre.length + rest.length := by
      show text.data.length = _
      rw [hdata]
      simp [List.length_append]
      omega
    refine ⟨heq, ?_, ?_⟩
    · exact pyStrip_length_bound text c s e (by omega) (by omega)
    · obtain ⟨w1, w2, hw⟩ := pySlice_window_decomp text c s e skip pre rest hdata hsk hel
      obtain ⟨c0, t0, hm⟩ : ∃ c0 t0, pre = c0 :: t0 := by
        cases pre with
        | nil => exact absurd rfl hpne
        | cons x xs => exact ⟨x, xs, rfl⟩
      obtain ⟨ds, dl, hml⟩ : ∃ ds dl, pre = ds ++ [dl] := by
        rcases List.eq_nil_or_concat pre with hnil | ⟨ds, dl, hcat⟩
        · exact absurd hnil hpne
        · exact ⟨ds, dl, by rw [hcat, List.concat_eq_append]⟩
      obtain ⟨x, y, hxy⟩ := pyStripL_decomp w1 pre w2 c0 t0 hm
        (hfirst c0 t0 hm) ds dl hml (hlast ds dl hml)
      refine ⟨x, y, ?_⟩
      show pyStripL (pySlice text (s - c) (min text.length (e + c))).data
        = x ++ (pySlice text s e).data ++ y
      rw [hw, hxy, pySlice_of_decomp text skip pre rest s e hdata hsk hel]

/-- Witness for C2: in `"a 555-1234"` the phone pattern matches at span
(2, 10), the email pattern does not match, and with two characters of
context the returned chunk is the stripped window. -/
theorem extract_contact_chunks_spec_witness :
    extract_contact_chunks "a 555-1234" 2 =
      some (pyStrip (pySlice "a 555-1234" (2 - 2) (min ("a 555-1234").length (10 + 2)))) ∧
    (pyStrip (pySlice "a 555-1234" (2 - 2) (min ("a 555-1234").length (10 + 2)))).length ≤
      min ("a 555-1234").length (2 * 2 + (10 - 2)) ∧
    containsSub (pyStrip (pySlice "a 555-1234" (2 - 2) (min ("a 555-1234").length (10 + 2))))
      (pySlice "a 555-1234" 2 10) :=
  (extract_contact_chunks_spec "a 555-1234" 2).2 2 10 (by decide)

/-! ## C3: the contact parser -/

theorem contactJson_slice_ne (s : String) (a b : Nat)
    (h : reSearch contactJsonRe s = some (a, b)) : pySlice s a b ≠ "" := by
  obtain ⟨skip, pre, rest, h1, h2, h3, h4, _, _⟩ := reSearch_spec _ _ _ _ h
  have hpre : pre ≠ [] := by
    intro hp
    have := h4 hp
    rw [show nullable contactJsonRe = false from rfl] at this
    cases this
  have hd := pySlice_of_decomp s skip pre rest a b h1 h2 h3
  intro hcon
  rw [hcon] at hd
  exact hpre hd.symm

theorem extract_contact_info_parse_eq (raw : String) :
    extract_contact_info_parse raw =
      (if pyStrip raw = "" then []
       else
        match reSearch contactJsonRe (pyStrip raw) with
        | none => []
        | some span =>
          if pySlice (pyStrip raw) span.1 span.2 = "" then []
          else
            match json_loads (pySlice (pyStrip raw) span.1 span.2) with
            | none => []
            | some (.arr elems) => elems
            | some _ => []) := rfl

/-- Claim C3: the contact parser never raises and degrades to the empty
list on every anomaly — blank input, no JSON-array-of-objects substring,
decode failure of the matched substring, a decoded non-list — and when
decoding succeeds with a list it returns that decoded list verbatim, with
no per-entry validation of the `{type, value}` shape (last conjunct: an
object without those fields passes through). -/
theorem extract_contact_info_spec :
    (∀ raw, pyStrip raw = "" → extract_contact_info_parse raw = []) ∧
    (∀ raw, reSearch contactJsonRe (pyStrip raw) = none →
      extract_contact_info_parse raw = []) ∧
    (∀ raw a b, reSearch contactJsonRe (pyStrip raw) = some (a, b) →
      json_loads (pySlice (pyStrip raw) a b) = none →
      extract_contact_info_parse raw = []) ∧
    (∀ raw a b elems, reSearch contactJsonRe (pyStrip raw) = some (a, b) →
      json_loads (pySlice (pyStrip raw) a b) = some (.arr elems) →
      extract_contact_info_parse raw = elems) ∧
    (∀ raw a b v, reSearch contactJsonRe (pyStrip raw) = some (a, b) →
      json_loads (pySlice (pyStrip raw) a b) = some v →
      (∀ elems, v ≠ .arr elems) → extract_contact_info_parse raw = []) ∧
    extract_contact_info_parse "" = [] ∧
    extract_contact_info_parse "  \n " = [] ∧
    extract_contact_info_parse "no json here" = [] ∧
    extract_contact_info_parse "[1,2,\x7d" = [] ∧
    extract_contact_info_parse "[\x7b,\x7d]" = [] ∧
    extract_contact_info_parse
        "here you go: [\x7b\"type\":\"email\",\"value\":\"a@b.com\"\x7d] thanks"
      = [.obj [("type", .str "email"), ("value", .str "a@b.com")]] ∧
    extract_contact_info_parse "x [\x7b\"a\": 1\x7d] y" = [.obj [("a", .num "1")]] := by
  refine ⟨?_, ?_, ?_, ?_, ?_, rfl, rfl, rfl, rfl, rfl, rfl, rfl⟩
  · intro raw h
    rw [extract_contact_info_parse_eq, h]
    rfl
  · intro raw h
    by_cases hre : pyStrip raw = ""
    · rw [extract_contact_info_parse_eq, hre]
      rfl
    · rw [extract_contact_info_parse_eq, if_neg hre, h]
  · intro raw a b h hjson
    have hre : pyStrip raw ≠ "" := by
      intro hcon
      rw [hcon] at h
      cases h
    have hne := contactJson_slice_ne (pyStrip raw) a b h
    rw [extract_contact_info_parse_eq, if_neg hre, h]
    show (if pySlice (pyStrip raw) a b = "" then [] else _) = ([] : List Json)
    rw [if_neg hne, hjson]
  · intro raw a b elems h hjson
    have hre : pyStrip raw ≠ "" := by
      intro hcon
      rw [hcon] at h
      cases h
    have hne := contactJson_slice_ne (pyStrip raw) a b h
    rw [extract_contact_info_parse_eq, if_neg hre, h]
    show (if pySlice (pyStrip raw) a b = "" then [] else _) = elems
    rw [if_neg hne, hjson]
  · intro raw a b v h hjson hv
    have hre : pyStrip raw ≠ "" := by
      intro hcon
      rw [hcon] at h
      cases h
    have hne := contactJson_slice_ne (pyStrip raw) a b h
    rw [extract_contact_info_parse_eq, if_neg hre, h]
    show (if pySlice (pyStrip raw) a b = "" then [] else _) = ([] : List Json)
    rw [if_neg hne, hjson]
    cases v with
    | arr elems => exact absurd rfl (hv elems)
    | null => rfl
    | bool b => rfl
    | num lx => rfl
    | str s => rfl
    | obj fs => rfl

/-- Witness for C3: the spec's own example, decoded verbatim through the
list-success branch. -/
theorem extract_contact_info_spec_witness :
    extract_contact_info_parse
        "here you go: [\x7b\"type\":\"email\",\"value\":\"a@b.com\"\x7d] thanks"
      = [.obj [("type", .str "email"), ("value", .str "a@b.com")]] :=
  extract_contact_info_spec.2.2.2.1
    "here you go: [\x7b\"type\":\"email\",\"value\":\"a@b.com\"\x7d] thanks"
    13 49 [.obj [("type", .str "email"), ("value", .str "a@b.com")]]
    (by decide) (by rfl)

/-! ## C5: the endpoint short-circuits without contacts -/

/-- Zeta-expanded form of `get_contact_info` (definitional). -/
theorem get_contact_info_eq (respondent website filer : String)
    (filer_info : List String) (resolution : String) (w : World) (st : RateStore) :
    get_contact_info respondent website filer filer_info resolution w st =
      (match check_rate_limit w.client_ip w.now st with
       | (.error e, st') => (.httpError e, st', false)
       | (.ok _, st') =>
         match validate_website website with
         | .error e => (.httpError e, st', false)
         | .ok website' =>
           match validate_filer_info filer_info with
           | .error e => (.httpError e, st', false)
           | .ok fi' =>
             match validate_resolution resolution with
             | .error e => (.httpError e, st', false)
             | .ok res' =>
               if w.crawl_text = "" then
                 (.json { respondent := respondent, filer := filer,
                          filer_info := fi', reason := res', website := website',
                          contacts := [],
                          message := some "No contact information found",
                          pdf_error := none, timestamp := w.timestamp }, st', false)
               else
                 match extract_contact_info_parse
                     (w.model_response (extract_contact_chunks w.crawl_text 1000)) with
                 | [] =>
                   (.json { respondent := respondent, filer := filer,
                            filer_info := fi', reason := res', website := website',
                            contacts := extract_contact_info_parse
                              (w.model_response
                                (extract_contact_chunks w.crawl_text 1000)),
                            message := none, pdf_error := none,
                            timestamp := w.timestamp }, st', false)
                 | _ :: _ =>
                   match (extract_contact_info_parse
                       (w.model_response
                         (extract_contact_chunks w.crawl_text 1000))).mapM contactValue with
                   | .error msg =>
                     (.json { respondent := respondent, filer := filer,
                              filer_info := fi', reason := res', website := website',
                              contacts := extract_contact_info_parse
                                (w.model_response
                                  (extract_contact_chunks w.crawl_text 1000)),
                              message := none, pdf_error := some msg,
                              timestamp := w.timestamp }, st', false)
                   | .ok respondent_data =>
                     match validate_legal_document w.legal_doc_text with
                     | .error e => (.httpError e, st', true)
                     | .ok legal_document =>
                       match legal_doc_to_pdf legal_document w.tmp_pdf_path respondent
                           (.list (respondent_data.map jsonToCItem))
                           (.list (fi'.map CItem.raw)) filer w.pdf with
                       | .ok pdf_path =>
                         (.file pdf_path ("Resolution for " ++ respondent ++ ".pdf"),
                          st', true)
                       | .error msg =>
                         (.json { respondent := respondent, filer := filer,
                                  filer_info := fi', reason := res',
                                  website := website',
                                  contacts := extract_contact_info_parse
                                    (w.model_response
                                      (extract_contact_chunks w.crawl_text 1000)),
                                  message := none, pdf_error := some msg,
                                  timestamp := w.timestamp }, st', true)) := rfl


theorem route_rate_limited (respondent website filer : String)
    (filer_info : List String) (resolution : String) (w : World) (st : RateStore)
    (e : HTTPError) (st2 : RateStore)
    (hrl : check_rate_limit w.client_ip w.now st = (.error e, st2)) :
    get_contact_info respondent website filer filer_info resolution w st =
      (.httpError e, st2, false) := by
  rw [get_contact_info_eq, hrl]

theorem route_website_error (respondent website filer : String)
    (filer_info : List String) (resolution : String) (w : World) (st : RateStore)
    (b : Bool) (st2 : RateStore) (e : HTTPError)
    (hrl : check_rate_limit w.client_ip w.now st = (.ok b, st2))
    (hw : validate_website website = .error e) :
    get_contact_info respondent website filer filer_info resolution w st =
      (.httpError e, st2, false) := by
  rw [get_contact_info_eq, hrl, hw]

theorem route_filer_error (respondent website filer : String)
    (filer_info : List String) (resolution : String) (w : World) (st : RateStore)
    (b : Bool) (st2 : RateStore) (website' : String) (e : HTTPError)
    (hrl : check_rate_limit w.client_ip w.now st = (.ok b, st2))
    (hw : validate_website website = .ok website')
    (hf : validate_filer_info filer_info = .error e) :
    get_contact_info respondent website filer filer_info resolution w st =
      (.httpError e, st2, false) := by
  rw [get_contact_info_eq, hrl, hw, hf]

theorem route_resolution_error (respondent website filer : String)
    (filer_info : List String) (resolution : String) (w : World) (st : RateStore)
    (b : Bool) (st2 : RateStore) (website' : String) (fi' : List String)
    (e : HTTPError)
    (hrl : check_rate_limit w.client_ip w.now st = (.ok b, st2))
    (hw : validate_website website = .ok website')
    (hf : validate_filer_info filer_info = .ok fi')
    (hres : validate_resolution resolution = .error e) :
    get_contact_info respondent website filer filer_info resolution w st =
      (.httpError e, st2, false) := by
  rw [get_contact_info_eq, hrl, hw, hf, hres]

theorem route_validated (respondent website filer : String)
    (filer_info : List String) (resolution : String) (w : World) (st : RateStore)
    (b : Bool) (st2 : RateStore) (website' : String) (fi' : List String)
    (res' : String)
    (hrl : check_rate_limit w.client_ip w.now st = (.ok b, st2))
    (hw : validate_website website = .ok website')
    (hf : validate_filer_info filer_info = .ok fi')
    (hres : validate_resolution resolution = .ok res') :
    get_contact_info respondent website filer filer_info resolution w st =
      (if w.crawl_text = "" then
         (.json { respondent := respondent, filer := filer,
                  filer_info := fi', reason := res', website := website',
                  contacts := [],
                  message := some "No contact information found",
                  pdf_error := none, timestamp := w.timestamp }, st2, false)
       else
         match extract_contact_info_parse
             (w.model_response (extract_contact_chunks w.crawl_text 1000)) with
         | [] =>
           (.json { respondent := respondent, filer := filer,
                    filer_info := fi', reason := res', website := website',
                    contacts := extract_contact_info_parse
                      (w.model_response (extract_contact_chunks w.crawl_text 1000)),
                    message := none, pdf_error := none,
                    timestamp := w.timestamp }, st2, false)
         | _ :: _ =>
           match (extract_contact_info_parse
               (w.model_response
                 (extract_contact_chunks w.crawl_text 1000))).mapM contactValue with
           | .error msg =>
             (.json { respondent := respondent, filer := filer,
                      filer_info := fi', reason := res', website := website',
                      contacts := extract_contact_info_parse
                        (w.model_response
                          (extract_contact_chunks w.crawl_text 1000)),
                      message := none, pdf_error := some msg,
                      timestamp := w.timestamp }, st2, false)
           | .ok respondent_data =>
             match validate_legal_document w.legal_doc_text with
             | .error e => (.httpError e, st2, true)
             | .ok legal_document =>
               match legal_doc_to_pdf legal_document w.tmp_pdf_path respondent
                   (.list (respondent_data.map jsonToCItem))
                   (.list (fi'.map CItem.raw)) filer w.pdf with
               | .ok pdf_path =>
                 (.file pdf_path ("Resolution for " ++ respondent ++ ".pdf"),
                  st2, true)
               | .error msg =>
                 (.json { respondent := respondent, filer := filer,
                          filer_info := fi', reason := res', website := website',
                          contacts := extract_contact_info_parse
                            (w.model_response
                              (extract_contact_chunks w.crawl_text 1000)),
                          message := none, pdf_error := some msg,
                          timestamp := w.timestamp }, st2, true)) := by
  rw [get_contact_info_eq, hrl, hw, hf, hres]

/-- Claim C5: a PDF response is produced only when the parsed contact list
is non-empty; with an empty crawl the endpoint returns the JSON payload
with `contacts = []` and the no-contact-information message, and with an
empty parsed contact list it returns the plain JSON payload — in both cases
without invoking document generation (third component `false`). -/
theorem get_contact_info_no_pdf (respondent website filer : String)
    (filer_info : List String) (resolution : String) (w : World) (st : RateStore) :
    (∀ path fn st' inv,
      get_contact_info respondent website filer filer_info resolution w st
        = (.file path fn, st', inv) →
      extract_contact_info_parse
        (w.model_response (extract_contact_chunks w.crawl_text 1000)) ≠ []) ∧
    (∀ website' fi' res',
      (check_rate_limit w.client_ip w.now st).1 = .ok true →
      validate_website website = .ok website' →
      validate_filer_info filer_info = .ok fi' →
      validate_resolution resolution = .ok res' →
      w.crawl_text = "" →
      get_contact_info respondent website filer filer_info resolution w st =
        (.json { respondent := respondent, filer := filer, filer_info := fi',
                 reason := res', website := website', contacts := [],
                 message := some "No contact information found",
                 pdf_error := none, timestamp := w.timestamp },
         (check_rate_limit w.client_ip w.now st).2, false)) ∧
    (∀ website' fi' res',
      (check_rate_limit w.client_ip w.now st).1 = .ok true →
      validate_website website = .ok website' →
      validate_filer_info filer_info = .ok fi' →
      validate_resolution resolution = .ok res' →
      w.crawl_text ≠ "" →
      extract_contact_info_parse
        (w.model_response (extract_contact_chunks w.crawl_text 1000)) = [] →
      get_contact_info respondent website filer filer_info resolution w st =
        (.json { respondent := respondent, filer := filer, filer_info := fi',
                 reason := res', website := website', contacts := [],
                 message := none, pdf_error := none, timestamp := w.timestamp },
         (check_rate_limit w.client_ip w.now st).2, false)) := by
  refine ⟨?_, ?_, ?_⟩
  · intro path fn st' inv h hc
    rcases hrl : check_rate_limit w.client_ip w.now st with ⟨r, st2⟩
    cases r with
    | error e =>
      rw [route_rate_limited respondent website filer filer_info resolution
        w st e st2 hrl] at h
      cases h
    | ok bb =>
      cases hw : validate_website website with
      | error e =>
        rw [route_website_error respondent website filer filer_info resolution
          w st bb st2 e hrl hw] at h
        cases h
      | ok website' =>
        cases hf : validate_filer_info filer_info with
        | error e =>
          rw [route_filer_error respondent website filer filer_info resolution
            w st bb st2 website' e hrl hw hf] at h
          cases h
        | ok fi' =>
          cases hres : validate_resolution resolution with
          | error e =>
            rw [route_resolution_error respondent website filer filer_info
              resolution w st bb st2 website' fi' e hrl hw hf hres] at h
            cases h
          | ok res' =>
            rw [route_validated respondent website filer filer_info resolution
              w st bb st2 website' fi' res' hrl hw hf hres] at h
            by_cases hcr : w.crawl_text = ""
            · rw [if_pos hcr] at h
              cases h
            · rw [if_neg hcr, hc] at h
              cases h
  · intro website' fi' res' hrate hw hf hres hcr
    rcases hrl : check_rate_limit w.client_ip w.now st with ⟨r, st2⟩
    rw [hrl] at hrate
    have hr : r = .ok true := hrate
    subst hr
    rw [route_validated respondent website filer filer_info resolution
      w st true st2 website' fi' res' hrl hw hf hres, if_pos hcr]
  · intro website' fi' res' hrate hw hf hres hcr hc
    rcases hrl : check_rate_limit w.client_ip w.now st with ⟨r, st2⟩
    rw [hrl] at hrate
    have hr : r = .ok true := hrate
    subst hr
    rw [route_validated respondent website filer filer_info resolution
      w st true st2 website' fi' res' hrl hw hf hres, if_neg hcr, hc]

/-- Witness for C5: a valid request whose crawl comes back empty gets the
no-contact JSON and never reaches document generation. -/
theorem get_contact_info_no_pdf_witness :
    get_contact_info "Acme Co" "a.com" "Bob" ["f1"] "pleasefixthis12"
        ⟨"1.2.3.4", 0, "T", "", fun _ => "", "", "/tmp/x.pdf",
         ⟨fun _ => .ok (), fun p => p, "D"⟩⟩ emptyStore =
      (.json { respondent := "Acme Co", filer := "Bob", filer_info := ["f1"],
               reason := "pleasefixthis12", website := "a.com", contacts := [],
               message := some "No contact information found",
               pdf_error := none, timestamp := "T" },
       (check_rate_limit "1.2.3.4" 0 emptyStore).2, false) :=
  (get_contact_info_no_pdf "Acme Co" "a.com" "Bob" ["f1"] "pleasefixthis12"
      ⟨"1.2.3.4", 0, "T", "", fun _ => "", "", "/tmp/x.pdf",
       ⟨fun _ => .ok (), fun p => p, "D"⟩⟩ emptyStore).2.1
    "a.com" ["f1"] "pleasefixthis12" (by rfl) (by rfl) (by rfl) (by rfl) (by rfl)

/-! ## C8: PDF failure downgraded to annotated JSON -/

/-- Claim C8: when document composition fails after contacts were found and
the legal text validated, the endpoint absorbs the failure and returns the
already-computed JSON payload annotated with a descriptive `pdf_error`
string (`"Error generating PDF: " ++ underlying message`, from
`utils.py:317-318` and `contact.py:120-123`) instead of failing the
request. -/
theorem get_contact_info_pdf_error_spec (respondent website filer : String)
    (filer_info : List String) (resolution : String) (w : World) (st : RateStore) :
    (∀ (lt ofn rn : String) (ri fi : PyContacts) (fn : String) (pw : PdfWorld)
       (msg : String),
      legal_doc_to_pdf lt ofn rn ri fi fn pw = .error msg →
      ∃ e, msg = "Error generating PDF: " ++ e) ∧
    (∀ (website' : String) (fi' : List String) (res' : String) (c0 : Json)
       (cs : List Json) (vals : List Json) (legal msg : String),
      (check_rate_limit w.client_ip w.now st).1 = .ok true →
      validate_website website = .ok website' →
      validate_filer_info filer_info = .ok fi' →
      validate_resolution resolution = .ok res' →
      w.crawl_text ≠ "" →
      extract_contact_info_parse
        (w.model_response (extract_contact_chunks w.crawl_text 1000)) = c0 :: cs →
      (c0 :: cs).mapM contactValue = .ok vals →
      validate_legal_document w.legal_doc_text = .ok legal →
      legal_doc_to_pdf legal w.tmp_pdf_path respondent
        (.list (vals.map jsonToCItem)) (.list (fi'.map CItem.raw)) filer w.pdf
        = .error msg →
      get_contact_info respondent website filer filer_info resolution w st =
        (.json { respondent := respondent, filer := filer, filer_info := fi',
                 reason := res', website := website', contacts := c0 :: cs,
                 message := none, pdf_error := some msg,
                 timestamp := w.timestamp },
         (check_rate_limit w.client_ip w.now st).2, true)) := by
  constructor
  · intro lt ofn rn ri fi fn pw msg h
    simp only [legal_doc_to_pdf] at h
    split at h
    · cases h
    · next e heq =>
      injection h with h'
      exact ⟨e, h'.symm⟩
  · intro website' fi' res' c0 cs vals legal msg hrate hw hf hres hcr hc hmap hlegal hpdf
    rcases hrl : check_rate_limit w.client_ip w.now st with ⟨r, st2⟩
    rw [hrl] at hrate
    have hr : r = .ok true := hrate
    subst hr
    rw [route_validated respondent website filer filer_info resolution
      w st true st2 website' fi' res' hrl hw hf hres, if_neg hcr]
    simp only [hc, hmap, hlegal, hpdf]

set_option maxRecDepth 100000 in
/-- Witness for C8: a run in which everything succeeds except the PDF
build (which fails with "boom") returns the JSON payload annotated with
`pdf_error = "Error generating PDF: boom"`. -/
theorem get_contact_info_pdf_error_witness :
    get_contact_info "Acme Co" "a.com" "Bob" ["f1"] "pleasefixthis12"
        ⟨"1.2.3.4", 0, "T", "page text with things",
         fun _ => "[\x7b\"type\":\"phone\",\"value\":\"5\"\x7d]",
         ⟨List.replicate 120 'a'⟩, "/tmp/x.pdf",
         ⟨fun _ => .error "boom", fun p => p, "D"⟩⟩ emptyStore =
      (.json { respondent := "Acme Co", filer := "Bob", filer_info := ["f1"],
               reason := "pleasefixthis12", website := "a.com",
               contacts := [.obj [("type", .str "phone"), ("value", .str "5")]],
               message := none, pdf_error := some "Error generating PDF: boom",
               timestamp := "T" },
       (check_rate_limit "1.2.3.4" 0 emptyStore).2, true) :=
  (get_contact_info_pdf_error_spec "Acme Co" "a.com" "Bob" ["f1"]
      "pleasefixthis12"
      ⟨"1.2.3.4", 0, "T", "page text with things",
       fun _ => "[\x7b\"type\":\"phone\",\"value\":\"5\"\x7d]",
       ⟨List.replicate 120 'a'⟩, "/tmp/x.pdf",
       ⟨fun _ => .error "boom", fun p => p, "D"⟩⟩ emptyStore).2
    "a.com" ["f1"] "pleasefixthis12"
    (.obj [("type", .str "phone"), ("value", .str "5")]) [] [.str "5"]
    ⟨List.replicate 120 'a'⟩ "Error generating PDF: boom"
    (by rfl) (by rfl) (by rfl) (by rfl) (by decide) (by rfl) (by rfl)
    (by rfl) (by rfl)

end Resodo
